import Mathlib

/-!
Verification of the Bluetooth pairing wizard of the PagerAmp media player
(`src/root/payloads/user/utilities/pageramp/ui/bluetooth.py`, the deployed
copy of the screen; `src/ui/bluetooth.py` is an earlier btmgmt-based variant
of the same class).

The Python class `BluetoothScreen` is shallowly embedded: every external
subprocess invocation (`self._run(cmd)` and the two `subprocess.Popen`
spawns) is modelled as a query to a `World`, which maps the history of
commands issued so far plus the current command text to the (stripped)
stdout of that command.  The screen's mutable attributes become the fields
of the `Eng` structure, which additionally records the `trace` of all
commands issued.  `time.sleep` calls are dropped (they have no observable
effect in this model) and `time.time()` is the `now` field of the world.
-/

/-! ### Python string primitives, embedded structurally -/

/-- Whitespace characters recognised by Python `str.split(None)`. -/
def pyIsWs (c : Char) : Bool :=
  c = ' ' || c = '\t' || c = '\n' || c = '\r' || c = '\x0b' || c = '\x0c'

/-- Substring test on character lists (Python `pat in s`). -/
def hasSubAux (pat : List Char) : List Char → Bool
  | [] => pat.isEmpty
  | c :: cs => pat.isPrefixOf (c :: cs) || hasSubAux pat cs

/-- Python `pat in s` (substring containment). -/
def pyHas (s pat : String) : Bool :=
  hasSubAux pat.toList s.toList

/-- Python `s.startswith(p)`. -/
def pyStartsWith (s p : String) : Bool :=
  p.toList.isPrefixOf s.toList

/-- Python `s.lower()` (ASCII case folding suffices for the markers used). -/
def pyLower (s : String) : String :=
  String.mk (s.toList.map Char.toLower)

/-- Python `s[n:]`. -/
def strDrop (s : String) (n : Nat) : String :=
  String.mk (s.toList.drop n)

/-- Splitting on a newline character, Python `s.split("\n")`. -/
def splitNlAux : List Char → List (List Char)
  | [] => [[]]
  | c :: cs =>
    if c = '\n' then [] :: splitNlAux cs
    else
      match splitNlAux cs with
      | [] => [[c]]
      | t :: ts => (c :: t) :: ts

/-- Python `s.split("\n")`. -/
def pyLines (s : String) : List String :=
  (splitNlAux s.toList).map String.mk

/-- Python `s.split(None, maxsplit)`: runs of whitespace separate tokens,
after `maxsplit` tokens the remainder (with leading whitespace removed) is
returned verbatim as the final element. -/
def pySplitNoneAux : Nat → List Char → List (List Char)
  | 0, cs =>
    let cs2 := cs.dropWhile pyIsWs
    if cs2.isEmpty then [] else [cs2]
  | n + 1, cs =>
    let cs2 := cs.dropWhile pyIsWs
    if cs2.isEmpty then []
    else cs2.takeWhile (fun c => !pyIsWs c) ::
      pySplitNoneAux n (cs2.dropWhile (fun c => !pyIsWs c))

/-- Python `s.split(None, maxsplit)`. -/
def pySplitNone (s : String) (maxsplit : Nat) : List String :=
  (pySplitNoneAux maxsplit s.toList).map String.mk

/-- Python `s.split()` (no limit); fuel bounded by the string length. -/
def pySplitAllAux : Nat → List Char → List (List Char)
  | 0, _ => []
  | n + 1, cs =>
    let cs2 := cs.dropWhile pyIsWs
    if cs2.isEmpty then []
    else cs2.takeWhile (fun c => !pyIsWs c) ::
      pySplitAllAux n (cs2.dropWhile (fun c => !pyIsWs c))

/-- Python `s.split()`. -/
def pySplitAll (s : String) : List String :=
  (pySplitAllAux (s.toList.length + 1) s.toList).map String.mk

/-- Replacement of every occurrence of a nonempty pattern, fuel bounded. -/
def pyReplaceAux (pat rep : List Char) : Nat → List Char → List Char
  | 0, cs => cs
  | _, [] => []
  | n + 1, c :: cs =>
    if !pat.isEmpty && pat.isPrefixOf (c :: cs) then
      rep ++ pyReplaceAux pat rep n ((c :: cs).drop pat.length)
    else
      c :: pyReplaceAux pat rep n cs

/-- Python `s.replace(pat, rep)` for nonempty `pat`. -/
def pyReplace (s pat rep : String) : String :=
  String.mk (pyReplaceAux pat.toList rep.toList s.toList.length s.toList)

/-- Rendering of an optional string by Python `"%s"` formatting
(`None` prints as `"None"`). -/
def optStr : Option String → String
  | some s => s
  | none => "None"

/-- Python `x or d` for an optional string `x` (falsy: `None` and `""`). -/
def pyOr : Option String → String → String
  | some s, d => if s = "" then d else s
  | none, d => d

/-- Python truthiness of an optional string. -/
def pyTruthy : Option String → Bool
  | some s => s ≠ ""
  | none => false

/-! ### Settings dictionary (Python `dict` restricted to string values) -/

/-- The settings store, an insertion-ordered string dictionary. -/
abbrev Settings := List (String × String)

/-- Python `settings.get(k)`. -/
def sget (s : Settings) (k : String) : Option String :=
  match s.find? (fun p => p.1 == k) with
  | some p => some p.2
  | none => none

/-- Python `settings.get(k, d)`. -/
def sgetD (s : Settings) (k d : String) : String :=
  match sget s k with
  | some v => v
  | none => d

/-- Python `settings[k] = v` (replace in place, or append a new key). -/
def sset (s : Settings) (k v : String) : Settings :=
  if (s.find? (fun p => p.1 == k)).isSome then
    s.map (fun p => if p.1 == k then (k, v) else p)
  else
    s ++ [(k, v)]

/-! ### The external world and the embedded screen state -/

/-- The external world: `runOut hist cmd` is the (stripped) stdout produced
by shell command `cmd` when the commands in `hist` have already been issued,
`isfile` is `os.path.isfile`, and `now` is `time.time()` in whole seconds. -/
structure World where
  runOut : List String → String → String
  isfile : String → Bool
  now : Nat

/-- Install directory of the application (`SCRIPT_DIR` in the source; its
concrete value is irrelevant to every claim). -/
def SCRIPT_DIR : String := "/mmc/mp3/pageramp"

/-- The mutable attributes of `BluetoothScreen`, plus the `trace` of all
external commands issued so far. -/
structure Eng where
  settings : Settings
  state : Nat
  hci : Option String
  hciIndex : String
  adapterMac : Option String
  devices : List (String × String)
  selected : Int
  scrollOffset : Int
  message : String
  errorMsg : String
  visibleCount : Int
  scanStart : Nat
  scanDuration : Nat
  pairPending : Option (String × String)
  pairDrawWait : Nat
  returnScreen : String
  trace : List String
deriving DecidableEq

/-- Wizard states (the integer class constants of `BluetoothScreen`). -/
def CHECK_ADAPTER : Nat := 0

def SCAN : Nat := 1

def SELECT_DEVICE : Nat := 2

def PAIR : Nat := 3

def CONNECT : Nat := 4

def TEST : Nat := 5

def DONE : Nat := 6

def ERROR : Nat := 7

/-- Button codes used by `handle_input`. -/
def BTN_A : Nat := 0x10

def BTN_B : Nat := 0x20

def BTN_UP : Nat := 0x01

def BTN_DOWN : Nat := 0x02

/-- `BluetoothScreen.__init__` (drawing-only fields are omitted;
`visible_count = (222 - 60) // 18 = 9`). -/
def mkScreen (settings : Settings) : Eng :=
  { settings := settings
    state := CHECK_ADAPTER
    hci := none
    hciIndex := "0"
    adapterMac := none
    devices := []
    selected := 0
    scrollOffset := 0
    message := ""
    errorMsg := ""
    visibleCount := 9
    scanStart := 0
    scanDuration := 12
    pairPending := none
    pairDrawWait := 0
    returnScreen := "settings"
    trace := [] }

/-- `self._run(cmd)` (and the `Popen` spawns): issue a command, record it on
the trace, and return its output as determined by the world. -/
def runCmd (w : World) (st : Eng) (cmd : String) : String × Eng :=
  (w.runOut st.trace cmd, { st with trace := st.trace ++ [cmd] })

/-! ### Command text builders (exact strings the source interpolates) -/

/-- `bluetoothctl info %s 2>/dev/null` (state query used by `_do_pair` and
`_pair_device`). -/
def infoQCmd (mac : String) : String :=
  "bluetoothctl info " ++ (mac ++ " 2>/dev/null")

/-- `bluetoothctl info %s` (state query used by `_try_connect`). -/
def infoCmd (mac : String) : String :=
  "bluetoothctl info " ++ mac

/-- `bluetoothctl pair %s 2>&1`. -/
def pairCmd (mac : String) : String :=
  "bluetoothctl pair " ++ (mac ++ " 2>&1")

/-- `bluetoothctl connect %s 2>&1`. -/
def connectCmd (mac : String) : String :=
  "bluetoothctl connect " ++ (mac ++ " 2>&1")

/-- `bluetoothctl disconnect %s`. -/
def discCmd (mac : String) : String :=
  "bluetoothctl disconnect " ++ mac

/-- `bluetoothctl remove %s`. -/
def removeCmd (mac : String) : String :=
  "bluetoothctl remove " ++ mac

/-- `bluetoothctl trust %s`. -/
def trustCmd (mac : String) : String :=
  "bluetoothctl trust " ++ mac

/-- `timeout 5 bluetoothctl scan on >/dev/null 2>&1` (the brief re-discovery
between failed pairing attempts). -/
def rescanCmd : String := "timeout 5 bluetoothctl scan on >/dev/null 2>&1"

/-- `hciconfig -a %s 2>/dev/null`. -/
def hciInfoCmd (h : String) : String :=
  "hciconfig -a " ++ (h ++ " 2>/dev/null")

/-! ### Scan-result parsing and merging (`_poll_scan`, lines 221-271) -/

/-- Parsing of one line of `bluetoothctl devices Paired` output: lines
starting with `"Device "` split into `["Device", mac, name]`; the name is
tagged `" [paired]"`. -/
def parsePairedLine (line : String) : Option (String × String) :=
  if pyStartsWith line "Device " then
    match pySplitNone line 2 with
    | [_, mac, name] => some (mac, name ++ " [paired]")
    | _ => none
  else none

/-- Parsing of one line of `bluetoothctl devices` output: an `"LE-"` name
marker is stripped, and entries with an empty name or a name containing a
colon (an address used as a name) are discarded as noise. -/
def parseAllLine (line : String) : Option (String × String) :=
  if pyStartsWith line "Device " then
    match pySplitNone line 2 with
    | [_, mac, name0] =>
      let name := if pyStartsWith name0 "LE-" then strDrop name0 3 else name0
      if name ≠ "" && !pyHas name ":" then some (mac, name) else none
    | _ => none
  else none

/-- The accumulation loop shared by the two merge passes: a parsed entry is
appended only when its address is not yet in `seen`. -/
def scanFold (parse : String → Option (String × String)) :
    List String → List (String × String) → List String →
    List (String × String) × List String
  | [], devs, seen => (devs, seen)
  | line :: rest, devs, seen =>
    match parse line with
    | some (mac, name) =>
      if mac ∈ seen then scanFold parse rest devs seen
      else scanFold parse rest (devs ++ [(mac, name)]) (mac :: seen)
    | none => scanFold parse rest devs seen

/-- Merge passes 1 (paired devices) and 2 (all discovered devices) of
`_poll_scan`, returning the device list and the `seen` address set. -/
def pollScanBase (pairedOut allOut : String) :
    List (String × String) × List String :=
  let r1 := scanFold parsePairedLine (pyLines pairedOut) [] []
  scanFold parseAllLine (pyLines allOut) r1.1 r1.2

/-- Full device-list construction of `_poll_scan`: after the two merge
passes, a saved device from the settings is inserted at the front as a
fallback when its address was not seen. -/
def pollScanDevices (pairedOut allOut : String) (settings : Settings) :
    List (String × String) :=
  let r := pollScanBase pairedOut allOut
  match sget settings "bt_device_mac" with
  | some saved =>
    if saved ≠ "" ∧ saved ∉ r.2 then
      (saved, sgetD settings "bt_device_name" "Saved Device" ++ " [saved]")
        :: r.1
    else r.1
  | none => r.1

/-! ### Service bootstrap helpers -/

/-- `_update_asound` (lines 285-290): rewrite `asound.conf` via `sed` when
the file exists. -/
def update_asound (w : World) (mac : String) (st : Eng) : Eng :=
  let asoundPath := SCRIPT_DIR ++ "/config/asound.conf"
  if w.isfile asoundPath then
    (runCmd w st ("sed -i 's/device \".*\"/device \"" ++
      (mac ++ ("\"/' " ++ asoundPath)))).2
  else st

/-- `_ensure_dbus` (lines 142-165). -/
def ensure_dbus (w : World) (st : Eng) : Eng :=
  let dbusConf := "/etc/dbus-1/system.d/bluealsa.conf"
  let srcConf := SCRIPT_DIR ++ "/config/bluealsa-dbus.conf"
  let r1 :=
    if !w.isfile dbusConf then
      if w.isfile srcConf then
        let st := (runCmd w st "mkdir -p /etc/dbus-1/system.d").2
        let st := (runCmd w st ("cp " ++ (srcConf ++ (" " ++ dbusConf)))).2
        (st, true)
      else (st, false)
    else (st, false)
  let st := r1.1
  let policyInstalled := r1.2
  let r2 := runCmd w st "pidof dbus-daemon"
  let pid := r2.1
  let st := r2.2
  if pid = "" then (runCmd w st "dbus-daemon --system").2
  else if policyInstalled then
    if w.isfile "/etc/init.d/dbus" then
      (runCmd w st "/etc/init.d/dbus restart").2
    else
      (runCmd w st "killall dbus-daemon; sleep 1; dbus-daemon --system").2
  else st

/-- `_ensure_bluetoothd` (lines 167-171). -/
def ensure_bluetoothd (w : World) (st : Eng) : Eng :=
  let r := runCmd w st "pidof bluetoothd"
  if r.1 = "" then (runCmd w r.2 "bluetoothd -n &").2 else r.2

/-- `_ensure_bluealsad` (lines 173-201); the final `subprocess.Popen` spawn
is recorded on the trace like every other external invocation. -/
def ensure_bluealsad (w : World) (st : Eng) : Eng :=
  let bluealsad := SCRIPT_DIR ++ "/bin/bluealsad"
  if !w.isfile bluealsad then st
  else
    let r := runCmd w st "ps w | grep bluealsad | grep -v grep"
    let ps := r.1
    let st := r.2
    if ps ≠ "" ∧ pyHas ps ("-i " ++ optStr st.hci) then st
    else
      let st := if ps ≠ "" then (runCmd w st "killall bluealsad").2 else st
      (runCmd w st (bluealsad ++ (" -i " ++ (optStr st.hci ++
        " -p a2dp-source -p a2dp-sink --keep-alive=30 -S")))).2

/-! ### Adapter selection and scanning -/

/-- Address extraction inside `_check_adapter` (lines 104-110): on the first
line of the adapter info containing `"BD Address"`, the token after the
`"Address:"` token is taken, when present. -/
def extractAddr (info : String) : Option String :=
  match (pyLines info).find? (fun l => pyHas l "BD Address") with
  | some line =>
    let parts := pySplitAll line
    if "Address:" ∈ parts then
      let idx := parts.findIdx (fun p => p == "Address:")
      if idx + 1 < parts.length then some (parts.getD (idx + 1) "")
      else none
    else none
  | none => none

/-- `_start_scan` (lines 203-219): reset the device list, stamp the scan
start time and spawn a detached timed `bluetoothctl scan on`. -/
def start_scan (w : World) (st : Eng) : Eng :=
  let st := { st with
    message := "Scanning... Put device in pairing mode!"
    devices := []
    scanStart := w.now }
  (runCmd w st ("timeout " ++ (toString st.scanDuration ++
    " bluetoothctl scan on >/dev/null 2>&1"))).2

/-- The `for hci in ("hci0", "hci1")` loop body of `_check_adapter`
(lines 94-137): accept the first controller on a USB bus that is not the
MediaTek chipset, extract its address, bootstrap the Bluetooth stack and
move to scanning; when no candidate qualifies, enter the error state.
`self.adapter_mac` is assigned only when the `Address:` token extraction
succeeds (lines 107-109 sit under `if idx >= 0 and idx + 1 < len(parts)`),
so on extraction failure the prior value is retained. -/
def checkAdapterLoop (w : World) : List String → Eng → Eng
  | [], st =>
    { st with
      state := ERROR
      errorMsg := "No USB BT dongle found.\nPlug in a dongle and try again." }
  | h :: rest, st =>
    let r := runCmd w st (hciInfoCmd h)
    let info := r.1
    let st := r.2
    if !pyHas info "Bus: USB" then checkAdapterLoop w rest st
    else if pyHas info "MediaTek" then checkAdapterLoop w rest st
    else if info ≠ "" then
      let st := { st with
        hci := some h
        hciIndex := pyReplace h "hci" ""
        adapterMac :=
          match extractAddr info with
          | some m => some m
          | none => st.adapterMac }
      let st := (runCmd w st ("hciconfig " ++ (h ++ " up"))).2
      let st := (runCmd w st ("hciconfig " ++ (h ++ " auth encrypt"))).2
      let st := (runCmd w st ("hciconfig " ++
        (h ++ " name \"Pineapple Pager\""))).2
      let st := { st with message := "Starting Bluetooth services..." }
      let st := ensure_dbus w st
      let st := ensure_bluetoothd w st
      let st :=
        if pyTruthy st.adapterMac then
          (runCmd w st ("bluetoothctl select " ++ optStr st.adapterMac)).2
        else st
      let st := (runCmd w st "bluetoothctl power on").2
      let st := (runCmd w st "bluetoothctl pairable on").2
      let st := (runCmd w st "bluetoothctl system-alias \"Pineapple Pager\"").2
      let st := ensure_bluealsad w st
      let st := { st with
        message := "Found: " ++ (h ++ (" (" ++ (pyOr st.adapterMac "?" ++ ")")))
        state := SCAN }
      start_scan w st
    else checkAdapterLoop w rest st

/-- `_check_adapter` (lines 83-140). -/
def check_adapter (w : World) (st : Eng) : Eng :=
  let st := { st with message := "Looking for USB BT dongle..." }
  checkAdapterLoop w ["hci0", "hci1"] st

/-- `_poll_scan` (lines 221-271): while the scan window is open, only the
countdown message changes; afterwards the merged device list is built and,
when nonempty, the wizard moves to device selection with the cursor reset. -/
def poll_scan (w : World) (st : Eng) : Eng :=
  let elapsed := w.now - st.scanStart
  if elapsed < st.scanDuration then
    { st with message := "Scanning... " ++
        (toString (st.scanDuration - elapsed) ++ "s remaining") }
  else
    let r1 := runCmd w st "bluetoothctl devices Paired 2>/dev/null"
    let r2 := runCmd w r1.2 "bluetoothctl devices 2>/dev/null"
    let devices := pollScanDevices r1.1 r2.1 st.settings
    let st := { r2.2 with devices := devices }
    if devices ≠ [] then
      { st with
        state := SELECT_DEVICE
        message := "Found " ++ (toString devices.length ++ " device(s)")
        selected := 0 }
    else { st with message := "No devices found. Scan again?" }

/-! ### Pairing/Connection Engine (`_do_pair` .. `_finish_connect`) -/

/-- `_do_pair` (lines 292-308): run `bluetoothctl pair`; its stdout markers
`"Pairing successful"` and `"Already Paired"` are accepted directly, and
otherwise the daemon state is re-queried as a fallback. -/
def do_pair (w : World) (mac : String) (st : Eng) : Bool × Eng :=
  let r := runCmd w st (pairCmd mac)
  let result := r.1
  let st := r.2
  if pyHas result "Pairing successful" then (true, st)
  else if pyHas result "Already Paired" then (true, st)
  else
    let r2 := runCmd w st (infoQCmd mac)
    (pyHas r2.1 "Paired: yes", r2.2)

/-- The authentication-failure classification of a connect attempt's raw
output (lines 318-320). -/
def authFailOf (result : String) : Bool :=
  pyHas result "key-missing" || pyHas result "AuthenticationFailed" ||
  pyHas (pyLower result) "auth failed" ||
  pyHas result "status 0x05" || pyHas result "status 0x06"

/-- `_try_connect` (lines 310-322): run `bluetoothctl connect`, then
re-query the daemon; success is `"Connected: yes"` in the info output, and
the raw connect output is classified for authentication failure. -/
def try_connect (w : World) (mac : String) (st : Eng) :
    (Bool × Bool) × Eng :=
  let r := runCmd w st (connectCmd mac)
  let result := r.1
  let r2 := runCmd w r.2 (infoCmd mac)
  ((pyHas r2.1 "Connected: yes", authFailOf result), r2.2)

/-- `_remove_device` (lines 324-330): disconnect, then remove the stored
bond. -/
def remove_device (w : World) (mac : String) (st : Eng) : Eng :=
  let st := (runCmd w st (discCmd mac)).2
  (runCmd w st (removeCmd mac)).2

/-- `_finish_connect` (lines 440-446): record the device in the settings and
move to `DONE`. -/
def finish_connect (mac name : String) (st : Eng) : Eng :=
  { st with
    state := DONE
    message := "Connected to " ++ (name ++ "!")
    settings := sset (sset st.settings "bt_device_mac" mac)
      "bt_device_name" name }

/-- The `for pair_attempt in range(3)` loop of `_pair_device`
(lines 387-398), fuel counting the remaining attempts: each failed attempt
removes the device's partial cache entry and briefly re-triggers discovery
before the next attempt. -/
def pairLoop (w : World) (mac : String) : Nat → Eng → Bool × Eng
  | 0, st => (false, st)
  | n + 1, st =>
    let r := do_pair w mac st
    if r.1 then (true, r.2)
    else
      let st := remove_device w mac r.2
      let st := (runCmd w st rescanCmd).2
      pairLoop w mac n st

/-- The `for attempt in range(3)` post-pair connect loop of `_pair_device`
(lines 415-438), fuel counting the remaining attempts (`attempt < 2` in the
source is `n ≠ 0` here): an authentication failure with attempts remaining
removes the bond and re-pairs (trusting on success) before the next connect
attempt; other failures just retry; exhaustion gives the connection-failure
error state. -/
def connectLoop (w : World) (mac name : String) : Nat → Eng → Eng
  | 0, st =>
    { st with
      state := ERROR
      errorMsg := "Connection failed.\nPut device in pairing\nmode and try again." }
  | n + 1, st =>
    let r := try_connect w mac st
    let connected := r.1.1
    let authFail := r.1.2
    let st := r.2
    if connected then finish_connect mac name st
    else if authFail ∧ n ≠ 0 then
      let st := remove_device w mac st
      let r2 := do_pair w mac st
      let st := if r2.1 then (runCmd w r2.2 (trustCmd mac)).2 else r2.2
      connectLoop w mac name n st
    else connectLoop w mac name n st

/-- The fresh-pairing phase of `_pair_device` (lines 382-438): up to 3
pairing attempts; exhaustion gives the pairing-failure error state;
otherwise the device is trusted and the post-pair connect loop runs. -/
def freshPair (w : World) (mac name : String) (st : Eng) : Eng :=
  let st := { st with
    state := PAIR
    message := "Pairing with " ++ (name ++ "...") }
  let r := pairLoop w mac 3 st
  if !r.1 then
    { r.2 with
      state := ERROR
      errorMsg := "Pairing failed.\nPut device in pairing\nmode and try again." }
  else
    let st := (runCmd w r.2 (trustCmd mac)).2
    let st := { st with
      state := CONNECT
      message := "Connecting to " ++ (name ++ "...") }
    connectLoop w mac name 3 st

/-- The preparation steps of `_pair_device` (lines 346-351): adapter
selection, audio-routing configuration and the audio-relay daemon. -/
def prepare (w : World) (mac : String) (st : Eng) : Eng :=
  let st :=
    if pyTruthy st.adapterMac then
      (runCmd w st ("bluetoothctl select " ++ optStr st.adapterMac)).2
    else st
  let st := update_asound w mac st
  ensure_bluealsad w st

/-- `_pair_device` (lines 332-438): prepare the audio path, query the bond
state, fast-exit when already connected, fast-path connect when already
paired (clearing a stale bond on failure), then fresh pairing. -/
def pair_device (w : World) (mac name : String) (st : Eng) : Eng :=
  let st := prepare w mac st
  let r := runCmd w st (infoQCmd mac)
  let info := r.1
  let st := r.2
  let alreadyPaired := pyHas info "Paired: yes"
  let alreadyConnected := pyHas info "Connected: yes"
  if alreadyConnected then finish_connect mac name st
  else if alreadyPaired then
    let st := { st with
      state := CONNECT
      message := "Connecting to " ++ (name ++ "...") }
    let r2 := try_connect w mac st
    if r2.1.1 then finish_connect mac name r2.2
    else
      let st := remove_device w mac r2.2
      freshPair w mac name st
  else freshPair w mac name st

/-! ### Wizard state machine (`handle_input`, `update`, `enter`) -/

/-- The tag stripping applied to a chosen device name (line 471). -/
def stripTags (name : String) : String :=
  pyReplace (pyReplace name " [paired]" "") " [saved]" ""

/-- `handle_input` (lines 448-501).  Only press events (`event_type == 1`)
are actionable; the result is the updated screen plus the optional
screen-transition token.  A confirmed device in `SELECT_DEVICE` is only
recorded as the pending pair request; the engine is not invoked here.
(An out-of-range cursor would raise `IndexError` in the source; it is
modelled by `List.getD` and is unreachable under the selection invariant.) -/
def handle_input (w : World) (button eventType : Nat) (st : Eng) :
    Eng × Option String :=
  if eventType ≠ 1 then (st, none)
  else if st.state = SELECT_DEVICE then
    if button = BTN_UP then
      let sel := max 0 (st.selected - 1)
      let so := if sel < st.scrollOffset then sel else st.scrollOffset
      ({ st with selected := sel, scrollOffset := so }, none)
    else if button = BTN_DOWN then
      let sel := min ((st.devices.length : Int) - 1) (st.selected + 1)
      let so :=
        if sel ≥ st.scrollOffset + st.visibleCount then
          sel - st.visibleCount + 1
        else st.scrollOffset
      ({ st with selected := sel, scrollOffset := so }, none)
    else if button = BTN_A then
      if st.devices ≠ [] then
        let d := st.devices.getD st.selected.toNat ("", "")
        let name := stripTags d.2
        ({ st with
          state := PAIR
          message := "Pairing with " ++ (name ++ "...")
          pairPending := some (d.1, name) }, none)
      else (st, none)
    else if button = BTN_B then (st, some st.returnScreen)
    else (st, none)
  else if st.state = SCAN then
    if button = BTN_B then (st, some st.returnScreen)
    else if button = BTN_A then (start_scan w st, none)
    else (st, none)
  else if st.state = ERROR then
    if button = BTN_A then
      (check_adapter w { st with state := CHECK_ADAPTER }, none)
    else if button = BTN_B then (st, some st.returnScreen)
    else (st, none)
  else if st.state = DONE then
    if button = BTN_A ∨ button = BTN_B then (st, some st.returnScreen)
    else (st, none)
  else if st.state = CHECK_ADAPTER then
    if button = BTN_B then (st, some st.returnScreen)
    else (st, none)
  else (st, none)

/-- `update` (lines 503-515), one frame tick: a pending pair request first
waits one frame (so the "Pairing..." message draws), then executes the
engine; otherwise an open scan window is polled. -/
def update (w : World) (st : Eng) : Eng :=
  match st.pairPending with
  | some d =>
    let st := { st with pairDrawWait := st.pairDrawWait + 1 }
    if st.pairDrawWait < 2 then st
    else
      pair_device w d.1 d.2
        { st with pairPending := none, pairDrawWait := 0 }
  | none =>
    if st.state = SCAN then poll_scan w st else st

/-- `enter` (lines 65-71). -/
def enter (w : World) (st : Eng) : Eng :=
  check_adapter w
    { st with state := CHECK_ADAPTER, devices := [], message := "", errorMsg := "" }

/-! ### Classification of commands on the trace -/

/-- A pair invocation (`bluetoothctl pair ...`). -/
def isPairCmd (c : String) : Bool := pyStartsWith c "bluetoothctl pair "

/-- A connect invocation (`bluetoothctl connect ...`). -/
def isConnectCmd (c : String) : Bool := pyStartsWith c "bluetoothctl connect "

/-- A command that is neither a pair nor a connect invocation. -/
def notEngineCmd (c : String) : Prop :=
  isPairCmd c = false ∧ isConnectCmd c = false

theorem isPrefixOf_append_false {p a rest : List Char}
    (h1 : p.isPrefixOf a = false) (h2 : a.isPrefixOf p = false) :
    p.isPrefixOf (a ++ rest) = false := by
  by_contra hc
  have hp : p <+: a ++ rest :=
    List.isPrefixOf_iff_prefix.mp (by simpa using hc)
  rcases List.prefix_or_prefix_of_prefix hp (List.prefix_append a rest) with h | h
  · rw [List.isPrefixOf_iff_prefix.mpr h] at h1
    exact absurd h1 (by simp)
  · rw [List.isPrefixOf_iff_prefix.mpr h] at h2
    exact absurd h2 (by simp)

theorem isPrefixOf_append_true {p a : List Char} (rest : List Char)
    (h : p.isPrefixOf a = true) : p.isPrefixOf (a ++ rest) = true :=
  List.isPrefixOf_iff_prefix.mpr
    ((List.isPrefixOf_iff_prefix.mp h).trans (List.prefix_append a rest))

theorem toList_append (a b : String) : (a ++ b).toList = a.toList ++ b.toList := by
  cases a
  cases b
  rfl

/-- Starting-token test through an appended tail, mismatch case. -/
theorem pyStartsWith_app_false (a b p : String)
    (h1 : pyStartsWith a p = false) (h2 : pyStartsWith p a = false) :
    pyStartsWith (a ++ b) p = false := by
  unfold pyStartsWith at h1 h2 ⊢
  rw [toList_append]
  exact isPrefixOf_append_false h1 h2

/-- Starting-token test through an appended tail, match case. -/
theorem pyStartsWith_app_true (a b p : String) (h : pyStartsWith a p = true) :
    pyStartsWith (a ++ b) p = true := by
  unfold pyStartsWith at h ⊢
  rw [toList_append]
  exact isPrefixOf_append_true _ h

theorem strAppend_assoc (a b c : String) : (a ++ b) ++ c = a ++ (b ++ c) := by
  cases a with
  | mk la =>
    cases b with
    | mk lb =>
      cases c with
      | mk lc =>
        show String.mk ((la ++ lb) ++ lc) = String.mk (la ++ (lb ++ lc))
        rw [List.append_assoc]

theorem notEngineCmd_of_lit (lit rest : String)
    (hp1 : pyStartsWith lit "bluetoothctl pair " = false)
    (hp2 : pyStartsWith "bluetoothctl pair " lit = false)
    (hc1 : pyStartsWith lit "bluetoothctl connect " = false)
    (hc2 : pyStartsWith "bluetoothctl connect " lit = false) :
    notEngineCmd (lit ++ rest) := by
  exact ⟨pyStartsWith_app_false lit rest _ hp1 hp2,
    pyStartsWith_app_false lit rest _ hc1 hc2⟩

theorem notEngineCmd_lit (lit : String)
    (hp : isPairCmd lit = false) (hc : isConnectCmd lit = false) :
    notEngineCmd lit :=
  ⟨hp, hc⟩

theorem notEngine_select (s : String) :
    notEngineCmd ("bluetoothctl select " ++ s) :=
  notEngineCmd_of_lit _ _ (by decide) (by decide) (by decide) (by decide)

theorem notEngine_sed (s : String) :
    notEngineCmd ("sed -i 's/device \".*\"/device \"" ++ s) :=
  notEngineCmd_of_lit _ _ (by decide) (by decide) (by decide) (by decide)

theorem notEngine_ps : notEngineCmd "ps w | grep bluealsad | grep -v grep" :=
  notEngineCmd_lit _ (by decide) (by decide)

theorem notEngine_killall : notEngineCmd "killall bluealsad" :=
  notEngineCmd_lit _ (by decide) (by decide)

theorem notEngine_spawn (s : String) :
    notEngineCmd ((SCRIPT_DIR ++ "/bin/bluealsad") ++ s) := by
  rw [strAppend_assoc]
  exact notEngineCmd_of_lit _ _ (by decide) (by decide) (by decide) (by decide)

theorem notEngine_infoQ (mac : String) : notEngineCmd (infoQCmd mac) :=
  notEngineCmd_of_lit _ _ (by decide) (by decide) (by decide) (by decide)

theorem notEngine_info (mac : String) : notEngineCmd (infoCmd mac) :=
  notEngineCmd_of_lit _ _ (by decide) (by decide) (by decide) (by decide)

theorem notEngine_disc (mac : String) : notEngineCmd (discCmd mac) :=
  notEngineCmd_of_lit _ _ (by decide) (by decide) (by decide) (by decide)

theorem notEngine_remove (mac : String) : notEngineCmd (removeCmd mac) :=
  notEngineCmd_of_lit _ _ (by decide) (by decide) (by decide) (by decide)

theorem notEngine_trust (mac : String) : notEngineCmd (trustCmd mac) :=
  notEngineCmd_of_lit _ _ (by decide) (by decide) (by decide) (by decide)

theorem notEngine_rescan : notEngineCmd rescanCmd :=
  notEngineCmd_lit _ (by decide) (by decide)

theorem isPairCmd_pair (mac : String) : isPairCmd (pairCmd mac) = true :=
  pyStartsWith_app_true _ _ _ (by decide)

theorem isConnectCmd_connect (mac : String) :
    isConnectCmd (connectCmd mac) = true :=
  pyStartsWith_app_true _ _ _ (by decide)

/-! ### Frame lemmas: the preparation phase only appends non-engine
commands to the trace -/

/-- A state transformer that only appends non-engine commands to the trace
and leaves every other field unchanged. -/
def framed (f : Eng → Eng) : Prop :=
  ∀ st, ∃ δ, f st = { st with trace := st.trace ++ δ } ∧ ∀ c ∈ δ, notEngineCmd c

theorem framed_comp {f g : Eng → Eng} (hf : framed f) (hg : framed g) :
    framed (fun st => g (f st)) := by
  intro st
  obtain ⟨d1, e1, m1⟩ := hf st
  obtain ⟨d2, e2, m2⟩ := hg (f st)
  refine ⟨d1 ++ d2, ?_, ?_⟩
  · show g (f st) = _
    rw [e2, e1]
    show Eng.mk _ _ _ _ _ _ _ _ _ _ _ _ _ _ _ _ ((st.trace ++ d1) ++ d2) = _
    rw [List.append_assoc]
  · intro c hc
    rcases List.mem_append.mp hc with hc | hc
    · exact m1 c hc
    · exact m2 c hc

theorem update_asound_framed (w : World) (mac : String) :
    framed (update_asound w mac) := by
  intro st
  by_cases h : w.isfile (SCRIPT_DIR ++ "/config/asound.conf") = true
  · refine ⟨["sed -i 's/device \".*\"/device \"" ++
      (mac ++ ("\"/' " ++ (SCRIPT_DIR ++ "/config/asound.conf")))], ?_, ?_⟩
    · simp [update_asound, runCmd, h]
    · intro c hc
      simp only [List.mem_singleton] at hc
      subst hc
      exact notEngine_sed _
  · refine ⟨[], ?_, by simp⟩
    simp [update_asound, runCmd, h]

theorem ensure_bluealsad_framed (w : World) : framed (ensure_bluealsad w) := by
  intro st
  by_cases h : w.isfile (SCRIPT_DIR ++ "/bin/bluealsad") = true
  · by_cases h2 : w.runOut st.trace "ps w | grep bluealsad | grep -v grep" ≠ "" ∧
        pyHas (w.runOut st.trace "ps w | grep bluealsad | grep -v grep")
          ("-i " ++ optStr st.hci) = true
    · refine ⟨["ps w | grep bluealsad | grep -v grep"], ?_, ?_⟩
      · simp [ensure_bluealsad, runCmd, h, h2]
      · intro c hc
        simp only [List.mem_singleton] at hc
        subst hc
        exact notEngine_ps
    · by_cases h3 : w.runOut st.trace "ps w | grep bluealsad | grep -v grep" = ""
      · refine ⟨["ps w | grep bluealsad | grep -v grep",
          (SCRIPT_DIR ++ "/bin/bluealsad") ++ (" -i " ++ (optStr st.hci ++
            " -p a2dp-source -p a2dp-sink --keep-alive=30 -S"))], ?_, ?_⟩
        · simp [ensure_bluealsad, runCmd, h, h2, h3]
        · intro c hc
          simp only [List.mem_cons, List.mem_singleton, List.not_mem_nil,
            or_false] at hc
          rcases hc with hc | hc
          · subst hc
            exact notEngine_ps
          · subst hc
            exact notEngine_spawn _
      · have h4 : pyHas (w.runOut st.trace "ps w | grep bluealsad | grep -v grep")
            ("-i " ++ optStr st.hci) = false := by
          have h5 := not_and.mp h2 h3
          simpa using h5
        refine ⟨["ps w | grep bluealsad | grep -v grep", "killall bluealsad",
          (SCRIPT_DIR ++ "/bin/bluealsad") ++ (" -i " ++ (optStr st.hci ++
            " -p a2dp-source -p a2dp-sink --keep-alive=30 -S"))], ?_, ?_⟩
        · simp [ensure_bluealsad, runCmd, h, h3, h4, List.append_assoc]
        · intro c hc
          simp only [List.mem_cons, List.mem_singleton, List.not_mem_nil,
            or_false] at hc
          rcases hc with hc | hc | hc
          · subst hc
            exact notEngine_ps
          · subst hc
            exact notEngine_killall
          · subst hc
            exact notEngine_spawn _
  · refine ⟨[], ?_, by simp⟩
    simp [ensure_bluealsad, h]

theorem selectStep_framed (w : World) :
    framed (fun st =>
      if pyTruthy st.adapterMac then
        (runCmd w st ("bluetoothctl select " ++ optStr st.adapterMac)).2
      else st) := by
  intro st
  by_cases h : pyTruthy st.adapterMac = true
  · refine ⟨["bluetoothctl select " ++ optStr st.adapterMac], ?_, ?_⟩
    · simp [runCmd, h]
    · intro c hc
      simp only [List.mem_singleton] at hc
      subst hc
      exact notEngine_select _
  · refine ⟨[], ?_, by simp⟩
    simp [h]

theorem prepare_frame (w : World) (mac : String) : framed (prepare w mac) := by
  have h := framed_comp
    (framed_comp (selectStep_framed w) (update_asound_framed w mac))
    (ensure_bluealsad_framed w)
  intro st
  exact h st

/-! ### Equational lemmas for the engine steps -/

theorem remove_device_eq (w : World) (mac : String) (st : Eng) :
    remove_device w mac st =
      { st with trace := st.trace ++ [discCmd mac, removeCmd mac] } := by
  simp [remove_device, runCmd, List.append_assoc]

theorem try_connect_eq (w : World) (mac : String) (st : Eng) :
    try_connect w mac st =
      ((pyHas (w.runOut (st.trace ++ [connectCmd mac]) (infoCmd mac))
          "Connected: yes",
        authFailOf (w.runOut st.trace (connectCmd mac))),
       { st with trace := st.trace ++ [connectCmd mac, infoCmd mac] }) := by
  simp [try_connect, runCmd, List.append_assoc]

theorem do_pair_fail (w : World) (mac : String)
    (H1 : ∀ h, pyHas (w.runOut h (pairCmd mac)) "Pairing successful" = false)
    (H2 : ∀ h, pyHas (w.runOut h (pairCmd mac)) "Already Paired" = false)
    (H3 : ∀ h, pyHas (w.runOut h (infoQCmd mac)) "Paired: yes" = false)
    (st : Eng) :
    do_pair w mac st =
      (false, { st with trace := st.trace ++ [pairCmd mac, infoQCmd mac] }) := by
  simp [do_pair, runCmd, H1, H2, H3, List.append_assoc]

theorem do_pair_ok (w : World) (mac : String)
    (H : ∀ h, pyHas (w.runOut h (pairCmd mac)) "Pairing successful" = true)
    (st : Eng) :
    do_pair w mac st =
      (true, { st with trace := st.trace ++ [pairCmd mac] }) := by
  simp [do_pair, runCmd, H]

theorem do_pair_trace (w : World) (mac : String) (st : Eng) :
    ∃ δ, ((do_pair w mac st).2).trace = st.trace ++ (pairCmd mac :: δ) := by
  simp only [do_pair, runCmd]
  split
  · exact ⟨[], by simp⟩
  · split
    · exact ⟨[], by simp⟩
    · exact ⟨[infoQCmd mac], by simp [List.append_assoc]⟩

theorem do_pair_settings (w : World) (mac : String) (st : Eng) :
    ((do_pair w mac st).2).settings = st.settings := by
  simp only [do_pair, runCmd]
  split
  · rfl
  · split
    · rfl
    · rfl

theorem do_pair_state (w : World) (mac : String) (st : Eng) :
    ((do_pair w mac st).2).state = st.state := by
  simp only [do_pair, runCmd]
  split
  · rfl
  · split
    · rfl
    · rfl

theorem pairLoop_trace (w : World) (mac : String) :
    ∀ n st, ∃ δ, ((pairLoop w mac n st).2).trace = st.trace ++ δ := by
  intro n
  induction n with
  | zero => exact fun st => ⟨[], by simp [pairLoop]⟩
  | succ n ih =>
    intro st
    simp only [pairLoop]
    obtain ⟨d1, e1⟩ := do_pair_trace w mac st
    split
    · exact ⟨pairCmd mac :: d1, e1⟩
    · obtain ⟨d2, e2⟩ := ih
        ((runCmd w (remove_device w mac (do_pair w mac st).2) rescanCmd).2)
      refine ⟨(pairCmd mac :: d1) ++
        ([discCmd mac, removeCmd mac, rescanCmd] ++ d2), ?_⟩
      rw [e2]
      simp [runCmd, remove_device_eq, e1, List.append_assoc]

theorem pairLoop_settings (w : World) (mac : String) :
    ∀ n st, ((pairLoop w mac n st).2).settings = st.settings := by
  intro n
  induction n with
  | zero => exact fun st => rfl
  | succ n ih =>
    intro st
    simp only [pairLoop]
    split
    · exact do_pair_settings w mac st
    · rw [ih]
      simp [runCmd, remove_device_eq, do_pair_settings]

theorem pairLoop_state (w : World) (mac : String) :
    ∀ n st, ((pairLoop w mac n st).2).state = st.state := by
  intro n
  induction n with
  | zero => exact fun st => rfl
  | succ n ih =>
    intro st
    simp only [pairLoop]
    split
    · exact do_pair_state w mac st
    · rw [ih]
      simp [runCmd, remove_device_eq, do_pair_state]

theorem connectLoop_outcome (w : World) (mac name : String) :
    ∀ n st,
      ((connectLoop w mac name n st).state = DONE ∧
        (connectLoop w mac name n st).settings =
          sset (sset st.settings "bt_device_mac" mac) "bt_device_name" name) ∨
      ((connectLoop w mac name n st).state = ERROR ∧
        (connectLoop w mac name n st).settings = st.settings) := by
  intro n
  induction n with
  | zero => exact fun st => Or.inr ⟨rfl, rfl⟩
  | succ n ih =>
    intro st
    simp only [connectLoop]
    split
    · left
      constructor
      · rfl
      · show (sset (sset ((try_connect w mac st).2).settings _ _) _ _) = _
        rw [try_connect_eq]
    · split
      · rcases ih (if (do_pair w mac (remove_device w mac (try_connect w mac st).2)).1 = true then
            (runCmd w (do_pair w mac (remove_device w mac (try_connect w mac st).2)).2 (trustCmd mac)).2
          else (do_pair w mac (remove_device w mac (try_connect w mac st).2)).2) with h | h
        · left
          refine ⟨h.1, ?_⟩
          rw [h.2]
          congr 1
          congr 1
          split
          · simp [runCmd, do_pair_settings, remove_device_eq, try_connect_eq]
          · simp [do_pair_settings, remove_device_eq, try_connect_eq]
        · right
          refine ⟨h.1, ?_⟩
          rw [h.2]
          split
          · simp [runCmd, do_pair_settings, remove_device_eq, try_connect_eq]
          · simp [do_pair_settings, remove_device_eq, try_connect_eq]
      · rcases ih (try_connect w mac st).2 with h | h
        · left
          refine ⟨h.1, ?_⟩
          rw [h.2]
          rw [try_connect_eq]
        · right
          refine ⟨h.1, ?_⟩
          rw [h.2]
          rw [try_connect_eq]

theorem freshPair_outcome (w : World) (mac name : String) (st : Eng) :
    ((freshPair w mac name st).state = DONE ∧
      (freshPair w mac name st).settings =
        sset (sset st.settings "bt_device_mac" mac) "bt_device_name" name) ∨
    ((freshPair w mac name st).state = ERROR ∧
      (freshPair w mac name st).settings = st.settings) := by
  simp only [freshPair]
  split
  · right
    refine ⟨rfl, ?_⟩
    show ((pairLoop w mac 3 _).2).settings = st.settings
    rw [pairLoop_settings]
  · rcases connectLoop_outcome w mac name 3
      { (runCmd w (pairLoop w mac 3
          { st with state := PAIR, message := "Pairing with " ++ (name ++ "...") }).2
          (trustCmd mac)).2 with
        state := CONNECT, message := "Connecting to " ++ (name ++ "...") } with h | h
    · left
      refine ⟨h.1, ?_⟩
      rw [h.2]
      show sset (sset ((pairLoop w mac 3 _).2).settings _ _) _ _ = _
      rw [pairLoop_settings]
    · right
      refine ⟨h.1, ?_⟩
      rw [h.2]
      show ((pairLoop w mac 3 _).2).settings = st.settings
      rw [pairLoop_settings]

theorem freshPair_outcome_of (w : World) (mac name : String) (st2 : Eng)
    (s0 : Settings) (h : st2.settings = s0) :
    ((freshPair w mac name st2).state = DONE ∧
      (freshPair w mac name st2).settings =
        sset (sset s0 "bt_device_mac" mac) "bt_device_name" name) ∨
    ((freshPair w mac name st2).state = ERROR ∧
      (freshPair w mac name st2).settings = s0) := by
  rw [← h]
  exact freshPair_outcome w mac name st2

theorem pair_device_outcome (w : World) (mac name : String) (st : Eng) :
    ((pair_device w mac name st).state = DONE ∧
      (pair_device w mac name st).settings =
        sset (sset st.settings "bt_device_mac" mac) "bt_device_name" name) ∨
    ((pair_device w mac name st).state = ERROR ∧
      (pair_device w mac name st).settings = st.settings) := by
  obtain ⟨d0, e0, m0⟩ := prepare_frame w mac st
  simp only [pair_device]
  rw [e0]
  split
  · exact Or.inl ⟨rfl, rfl⟩
  · split
    · split
      · exact Or.inl ⟨rfl, rfl⟩
      · exact freshPair_outcome_of w mac name _ _ rfl
    · exact freshPair_outcome_of w mac name _ _ rfl

/-! ### Settings lookup/update lemmas -/

theorem find?_map_set (k v k2 : String) (h : (k == k2) = false) :
    ∀ s : Settings,
      (s.map (fun p => if p.1 == k then (k, v) else p)).find?
          (fun p => p.1 == k2) =
        s.find? (fun p => p.1 == k2) := by
  intro s
  induction s with
  | nil => rfl
  | cons p ps ih =>
    cases hp : (p.1 == k) with
    | true =>
      have hpk : p.1 = k := by simpa using hp
      have hp2 : (p.1 == k2) = false := by
        rw [hpk]
        exact h
      rw [List.map_cons, if_pos hp]
      rw [List.find?_cons_of_neg _ (by simp [h]),
        List.find?_cons_of_neg _ (by simp [hp2])]
      exact ih
    | false =>
      rw [List.map_cons, if_neg (by simp [hp])]
      cases hp2 : (p.1 == k2) with
      | true =>
        rw [List.find?_cons_of_pos _ (by simp [hp2]),
          List.find?_cons_of_pos _ (by simp [hp2])]
      | false =>
        rw [List.find?_cons_of_neg _ (by simp [hp2]),
          List.find?_cons_of_neg _ (by simp [hp2])]
        exact ih

theorem find?_append_single (k v k2 : String) (h : (k == k2) = false) :
    ∀ s : Settings,
      (s ++ [(k, v)]).find? (fun p => p.1 == k2) =
        s.find? (fun p => p.1 == k2) := by
  intro s
  induction s with
  | nil =>
    rw [List.nil_append, List.find?_cons_of_neg _ (by simp [h])]
  | cons p ps ih =>
    rw [List.cons_append]
    cases hp2 : (p.1 == k2) with
    | true =>
      rw [List.find?_cons_of_pos _ (by simp [hp2]),
        List.find?_cons_of_pos _ (by simp [hp2])]
    | false =>
      rw [List.find?_cons_of_neg _ (by simp [hp2]),
        List.find?_cons_of_neg _ (by simp [hp2])]
      exact ih

theorem sget_sset_ne (s : Settings) (k v k2 : String) (h : k2 ≠ k) :
    sget (sset s k v) k2 = sget s k2 := by
  have hk : (k == k2) = false := beq_eq_false_iff_ne.mpr fun hh => h hh.symm
  unfold sset
  split
  · unfold sget
    rw [find?_map_set k v k2 hk s]
  · unfold sget
    rw [find?_append_single k v k2 hk s]

/-! ### Device-merge invariant (scanner de-duplication) -/

theorem scanFold_inv (parse : String → Option (String × String)) :
    ∀ (lines : List String) (devs : List (String × String))
      (seen : List String),
      (devs.map Prod.fst).Nodup →
      (∀ m, m ∈ devs.map Prod.fst ↔ m ∈ seen) →
      ((scanFold parse lines devs seen).1.map Prod.fst).Nodup ∧
        (∀ m, m ∈ (scanFold parse lines devs seen).1.map Prod.fst ↔
          m ∈ (scanFold parse lines devs seen).2) := by
  intro lines
  induction lines with
  | nil =>
    intro devs seen h1 h2
    exact ⟨h1, h2⟩
  | cons line rest ih =>
    intro devs seen h1 h2
    cases hp : parse line with
    | none =>
      have e : scanFold parse (line :: rest) devs seen =
          scanFold parse rest devs seen := by
        simp [scanFold, hp]
      rw [e]
      exact ih devs seen h1 h2
    | some d =>
      obtain ⟨mac, name⟩ := d
      by_cases hm : mac ∈ seen
      · have e : scanFold parse (line :: rest) devs seen =
            scanFold parse rest devs seen := by
          simp [scanFold, hp, hm]
        rw [e]
        exact ih devs seen h1 h2
      · have e : scanFold parse (line :: rest) devs seen =
            scanFold parse rest (devs ++ [(mac, name)]) (mac :: seen) := by
          simp [scanFold, hp, hm]
        rw [e]
        apply ih
        · rw [List.map_append]
          refine List.Nodup.append h1 (List.nodup_singleton mac) ?_
          intro a ha hb
          simp only [List.map_cons, List.map_nil, List.mem_singleton] at hb
          subst hb
          exact hm ((h2 a).mp ha)
        · intro m
          rw [List.map_append]
          simp only [List.mem_append, List.map_cons, List.map_nil,
            List.mem_singleton, List.mem_cons]
          rw [h2 m]
          tauto

/-! ### Claim theorems -/

/-- C1: In the Pairing/Connection Engine's fresh-pairing phase, when every
pairing attempt fails (the pair command output never shows a success marker
and the daemon never reports `Paired: yes`), the pairing operation is
attempted exactly 3 times; after each failed attempt the device's
partial/unbonded cache entry is removed (disconnect, then remove) and
discovery is briefly re-triggered before the retry; after the third failure
the engine sets the wizard state to Error with the pairing-failed message
instructing the user to re-enter pairing mode, leaving the settings
untouched. -/
theorem c1_fresh_pairing_three_attempts (w : World) (mac name : String)
    (st : Eng)
    (H1 : ∀ h, pyHas (w.runOut h (pairCmd mac)) "Pairing successful" = false)
    (H2 : ∀ h, pyHas (w.runOut h (pairCmd mac)) "Already Paired" = false)
    (H3 : ∀ h, pyHas (w.runOut h (infoQCmd mac)) "Paired: yes" = false) :
    freshPair w mac name st =
      { st with
        state := ERROR
        message := "Pairing with " ++ (name ++ "...")
        errorMsg := "Pairing failed.\nPut device in pairing\nmode and try again."
        trace := st.trace ++
          [pairCmd mac, infoQCmd mac, discCmd mac, removeCmd mac, rescanCmd,
           pairCmd mac, infoQCmd mac, discCmd mac, removeCmd mac, rescanCmd,
           pairCmd mac, infoQCmd mac, discCmd mac, removeCmd mac, rescanCmd] } := by
  have hdp := do_pair_fail w mac H1 H2 H3
  simp [freshPair, pairLoop, hdp, remove_device_eq, runCmd, List.append_assoc]

/-- Witness for C1: a concrete world in which every command prints nothing,
evaluated on a fresh screen. -/
theorem c1_witness :
    freshPair ⟨fun _ _ => "", fun _ => false, 0⟩ "AA:BB:CC:DD:EE:FF" "Speaker"
        (mkScreen []) =
      { mkScreen [] with
        state := ERROR
        message := "Pairing with " ++ ("Speaker" ++ "...")
        errorMsg := "Pairing failed.\nPut device in pairing\nmode and try again."
        trace := (mkScreen []).trace ++
          [pairCmd "AA:BB:CC:DD:EE:FF", infoQCmd "AA:BB:CC:DD:EE:FF",
           discCmd "AA:BB:CC:DD:EE:FF", removeCmd "AA:BB:CC:DD:EE:FF", rescanCmd,
           pairCmd "AA:BB:CC:DD:EE:FF", infoQCmd "AA:BB:CC:DD:EE:FF",
           discCmd "AA:BB:CC:DD:EE:FF", removeCmd "AA:BB:CC:DD:EE:FF", rescanCmd,
           pairCmd "AA:BB:CC:DD:EE:FF", infoQCmd "AA:BB:CC:DD:EE:FF",
           discCmd "AA:BB:CC:DD:EE:FF", removeCmd "AA:BB:CC:DD:EE:FF", rescanCmd] } :=
  c1_fresh_pairing_three_attempts ⟨fun _ _ => "", fun _ => false, 0⟩
    "AA:BB:CC:DD:EE:FF" "Speaker" (mkScreen [])
    (fun _ => rfl) (fun _ => rfl) (fun _ => rfl)

/-- C5: For every paired-device output, discovery output and settings, the
device list produced by the scanner's poll never contains two entries with
the same address (paired entries are merged first, then discovered entries,
each skipped when the address was already seen), and no synthetic saved
entry is added when the saved address already appears among the paired or
discovered entries. -/
theorem c5_scan_dedup (pairedOut allOut : String) (settings : Settings) :
    ((pollScanDevices pairedOut allOut settings).map Prod.fst).Nodup ∧
    (∀ s, sget settings "bt_device_mac" = some s → s ≠ "" →
      s ∈ (pollScanBase pairedOut allOut).1.map Prod.fst →
      pollScanDevices pairedOut allOut settings =
        (pollScanBase pairedOut allOut).1) := by
  have h1 := scanFold_inv parsePairedLine (pyLines pairedOut) [] []
    (by simp) (by simp)
  have h2 := scanFold_inv parseAllLine (pyLines allOut) _ _ h1.1 h1.2
  have hb1 : ((pollScanBase pairedOut allOut).1.map Prod.fst).Nodup := h2.1
  have hb2 : ∀ m, m ∈ (pollScanBase pairedOut allOut).1.map Prod.fst ↔
      m ∈ (pollScanBase pairedOut allOut).2 := h2.2
  constructor
  · cases hs : sget settings "bt_device_mac" with
    | none =>
      have e : pollScanDevices pairedOut allOut settings =
          (pollScanBase pairedOut allOut).1 := by
        simp [pollScanDevices, hs]
      rw [e]
      exact hb1
    | some saved =>
      by_cases hc : saved ≠ "" ∧ saved ∉ (pollScanBase pairedOut allOut).2
      · have e : pollScanDevices pairedOut allOut settings =
            (saved, sgetD settings "bt_device_name" "Saved Device" ++ " [saved]")
              :: (pollScanBase pairedOut allOut).1 := by
          simp [pollScanDevices, hs, hc.1, hc.2]
        rw [e, List.map_cons]
        refine List.nodup_cons.mpr ⟨?_, hb1⟩
        intro hmem
        exact hc.2 ((hb2 saved).mp hmem)
      · rcases not_and_or.mp hc with hc1 | hc2
        · have hsv : saved = "" := not_not.mp hc1
          have e : pollScanDevices pairedOut allOut settings =
              (pollScanBase pairedOut allOut).1 := by
            simp [pollScanDevices, hs, hsv]
          rw [e]
          exact hb1
        · have hsv : saved ∈ (pollScanBase pairedOut allOut).2 := not_not.mp hc2
          have e : pollScanDevices pairedOut allOut settings =
              (pollScanBase pairedOut allOut).1 := by
            simp [pollScanDevices, hs, hsv]
          rw [e]
          exact hb1
  · intro s hs hne hmem
    have hmem2 : s ∈ (pollScanBase pairedOut allOut).2 := (hb2 s).mp hmem
    simp [pollScanDevices, hs, hmem2]

/-- Witness for C5 (the spec's scenario): discovery yields one device whose
address equals the saved address, so the final list has exactly that one
entry and no synthetic saved duplicate. -/
theorem c5_witness :
    sget [("bt_device_mac", "11:22:33:44:55:66")] "bt_device_mac" =
      some "11:22:33:44:55:66" ∧
    "11:22:33:44:55:66" ∈
      (pollScanBase "" "Device 11:22:33:44:55:66 Speaker").1.map Prod.fst ∧
    pollScanDevices "" "Device 11:22:33:44:55:66 Speaker"
        [("bt_device_mac", "11:22:33:44:55:66")] =
      (pollScanBase "" "Device 11:22:33:44:55:66 Speaker").1 :=
  ⟨by decide, by decide,
    (c5_scan_dedup "" "Device 11:22:33:44:55:66 Speaker"
        [("bt_device_mac", "11:22:33:44:55:66")]).2
      "11:22:33:44:55:66" (by decide) (by decide) (by decide)⟩

theorem connectLoop_trace (w : World) (mac name : String) :
    ∀ n st, ∃ δ, (connectLoop w mac name n st).trace = st.trace ++ δ := by
  intro n
  induction n with
  | zero => exact fun st => ⟨[], by simp [connectLoop]⟩
  | succ n ih =>
    intro st
    simp only [connectLoop]
    split
    · refine ⟨[connectCmd mac, infoCmd mac], ?_⟩
      show ((try_connect w mac st).2).trace = _
      rw [try_connect_eq]
    · split
      · obtain ⟨d2, e2⟩ := ih (if (do_pair w mac
            (remove_device w mac (try_connect w mac st).2)).1 = true then
          (runCmd w (do_pair w mac
            (remove_device w mac (try_connect w mac st).2)).2 (trustCmd mac)).2
          else (do_pair w mac (remove_device w mac (try_connect w mac st).2)).2)
        obtain ⟨d1, e1⟩ := do_pair_trace w mac
          (remove_device w mac (try_connect w mac st).2)
        simp [remove_device_eq, try_connect_eq, List.append_assoc] at e1
        rw [e2]
        split
        · refine ⟨[connectCmd mac, infoCmd mac, discCmd mac, removeCmd mac] ++
            ((pairCmd mac :: d1) ++ ([trustCmd mac] ++ d2)), ?_⟩
          simp [runCmd, remove_device_eq, try_connect_eq, e1, List.append_assoc]
        · refine ⟨[connectCmd mac, infoCmd mac, discCmd mac, removeCmd mac] ++
            ((pairCmd mac :: d1) ++ d2), ?_⟩
          simp [remove_device_eq, try_connect_eq, e1, List.append_assoc]
      · obtain ⟨d2, e2⟩ := ih (try_connect w mac st).2
        rw [e2]
        refine ⟨[connectCmd mac, infoCmd mac] ++ d2, ?_⟩
        rw [try_connect_eq]
        simp [List.append_assoc]

theorem pairLoop_head (w : World) (mac : String) (n : Nat) (st : Eng) :
    ∃ δ, ((pairLoop w mac (n + 1) st).2).trace =
      st.trace ++ (pairCmd mac :: δ) := by
  simp only [pairLoop]
  obtain ⟨d1, e1⟩ := do_pair_trace w mac st
  split
  · exact ⟨d1, e1⟩
  · obtain ⟨d2, e2⟩ := pairLoop_trace w mac n
      ((runCmd w (remove_device w mac (do_pair w mac st).2) rescanCmd).2)
    refine ⟨d1 ++ ([discCmd mac, removeCmd mac, rescanCmd] ++ d2), ?_⟩
    rw [e2]
    simp [runCmd, remove_device_eq, e1, List.append_assoc]

theorem freshPair_head (w : World) (mac name : String) (st : Eng) :
    ∃ rest, (freshPair w mac name st).trace =
      st.trace ++ (pairCmd mac :: rest) := by
  simp only [freshPair]
  obtain ⟨d1, e1⟩ := pairLoop_head w mac 2
    { st with state := PAIR, message := "Pairing with " ++ (name ++ "...") }
  rcases hq : pairLoop w mac 3
    { st with state := PAIR, message := "Pairing with " ++ (name ++ "...") }
    with ⟨b, st2⟩
  rw [hq] at e1
  have e1' : st2.trace = st.trace ++ (pairCmd mac :: d1) := e1
  cases b with
  | false => exact ⟨d1, e1'⟩
  | true =>
    obtain ⟨d2, e2⟩ := connectLoop_trace w mac name 3
      { (runCmd w st2 (trustCmd mac)).2 with
        state := CONNECT, message := "Connecting to " ++ (name ++ "...") }
    refine ⟨d1 ++ ([trustCmd mac] ++ d2), ?_⟩
    simp only [Bool.not_true]
    rw [if_neg (by simp)]
    rw [e2]
    show ((runCmd w st2 (trustCmd mac)).2).trace ++ d2 = _
    simp [runCmd, e1', List.append_assoc]

/-- C4: When the initial bond-state query reports `Connected: yes`, the
engine finishes successfully immediately: the wizard state becomes Done
with the connected message, the settings receive the device, and the whole
run issues no pair command and no connect command. -/
theorem c4_connected_fast_exit (w : World) (mac name : String) (st : Eng)
    (H : ∀ h, pyHas (w.runOut h (infoQCmd mac)) "Connected: yes" = true) :
    (pair_device w mac name st).state = DONE ∧
    (pair_device w mac name st).message = "Connected to " ++ (name ++ "!") ∧
    (pair_device w mac name st).settings =
      sset (sset st.settings "bt_device_mac" mac) "bt_device_name" name ∧
    ∃ δ, (pair_device w mac name st).trace = st.trace ++ δ ∧
      ∀ c ∈ δ, notEngineCmd c := by
  obtain ⟨d0, e0, m0⟩ := prepare_frame w mac st
  have e : pair_device w mac name st =
      finish_connect mac name
        { st with trace := st.trace ++ (d0 ++ [infoQCmd mac]) } := by
    simp only [pair_device]
    rw [e0]
    simp [runCmd, H, List.append_assoc]
  rw [e]
  refine ⟨rfl, rfl, rfl, d0 ++ [infoQCmd mac], rfl, ?_⟩
  intro c hc
  rcases List.mem_append.mp hc with hc | hc
  · exact m0 c hc
  · rw [List.mem_singleton.mp hc]
    exact notEngine_infoQ mac

/-- Witness for C4: a world whose info query always answers
`Connected: yes`, so the engine finishes at once without pair or connect
calls. -/
theorem c4_witness :
    (pair_device
        ⟨fun _ c => if c = infoQCmd "AA:BB:CC:DD:EE:FF" then "Connected: yes"
          else "", fun _ => false, 0⟩
        "AA:BB:CC:DD:EE:FF" "Speaker" (mkScreen [])).state = DONE ∧
    (pair_device
        ⟨fun _ c => if c = infoQCmd "AA:BB:CC:DD:EE:FF" then "Connected: yes"
          else "", fun _ => false, 0⟩
        "AA:BB:CC:DD:EE:FF" "Speaker" (mkScreen [])).message =
      "Connected to " ++ ("Speaker" ++ "!") ∧
    (pair_device
        ⟨fun _ c => if c = infoQCmd "AA:BB:CC:DD:EE:FF" then "Connected: yes"
          else "", fun _ => false, 0⟩
        "AA:BB:CC:DD:EE:FF" "Speaker" (mkScreen [])).settings =
      sset (sset (mkScreen []).settings "bt_device_mac" "AA:BB:CC:DD:EE:FF")
        "bt_device_name" "Speaker" ∧
    ∃ δ, (pair_device
        ⟨fun _ c => if c = infoQCmd "AA:BB:CC:DD:EE:FF" then "Connected: yes"
          else "", fun _ => false, 0⟩
        "AA:BB:CC:DD:EE:FF" "Speaker" (mkScreen [])).trace =
      (mkScreen []).trace ++ δ ∧ ∀ c ∈ δ, notEngineCmd c :=
  c4_connected_fast_exit
    ⟨fun _ c => if c = infoQCmd "AA:BB:CC:DD:EE:FF" then "Connected: yes"
      else "", fun _ => false, 0⟩
    "AA:BB:CC:DD:EE:FF" "Speaker" (mkScreen []) (fun _ => rfl)

/-- C3: When the bond state reports `Paired: yes` but not `Connected: yes`
and the direct connect attempt fails, the engine first tries the direct
connect, then removes the existing bond (disconnect, then remove the device
record), and then enters fresh pairing — on the command trace the
disconnect and remove calls sit between the failed connect and the first
new pair call, and nothing before them is a pair call. -/
theorem c3_stale_bond_remove_then_fresh_pair (w : World) (mac name : String)
    (st : Eng)
    (HP : ∀ h, pyHas (w.runOut h (infoQCmd mac)) "Paired: yes" = true)
    (HC : ∀ h, pyHas (w.runOut h (infoQCmd mac)) "Connected: yes" = false)
    (HC2 : ∀ h, pyHas (w.runOut h (infoCmd mac)) "Connected: yes" = false) :
    ∃ δ rest, (pair_device w mac name st).trace =
      st.trace ++ (δ ++ (infoQCmd mac :: connectCmd mac :: infoCmd mac ::
        discCmd mac :: removeCmd mac :: pairCmd mac :: rest)) ∧
      ∀ c ∈ δ, notEngineCmd c := by
  obtain ⟨d0, e0, m0⟩ := prepare_frame w mac st
  have e : pair_device w mac name st =
      freshPair w mac name
        { st with
          state := CONNECT
          message := "Connecting to " ++ (name ++ "...")
          trace := st.trace ++ (d0 ++ [infoQCmd mac, connectCmd mac,
            infoCmd mac, discCmd mac, removeCmd mac]) } := by
    simp only [pair_device]
    rw [e0]
    simp [runCmd, HP, HC, HC2, try_connect_eq, remove_device_eq,
      List.append_assoc]
  rw [e]
  obtain ⟨rest, er⟩ := freshPair_head w mac name
    { st with
      state := CONNECT
      message := "Connecting to " ++ (name ++ "...")
      trace := st.trace ++ (d0 ++ [infoQCmd mac, connectCmd mac,
        infoCmd mac, discCmd mac, removeCmd mac]) }
  refine ⟨d0, rest, ?_, m0⟩
  rw [er]
  simp [List.append_assoc]

/-- Witness for C3: a world that reports the device paired but whose
connect attempts never produce a connected state. -/
theorem c3_witness :
    ∃ δ rest,
      (pair_device
          ⟨fun _ c => if c = infoQCmd "AA:BB:CC:DD:EE:FF" then "Paired: yes"
            else "", fun _ => false, 0⟩
          "AA:BB:CC:DD:EE:FF" "Speaker" (mkScreen [])).trace =
        (mkScreen []).trace ++ (δ ++ (infoQCmd "AA:BB:CC:DD:EE:FF" ::
          connectCmd "AA:BB:CC:DD:EE:FF" :: infoCmd "AA:BB:CC:DD:EE:FF" ::
          discCmd "AA:BB:CC:DD:EE:FF" :: removeCmd "AA:BB:CC:DD:EE:FF" ::
          pairCmd "AA:BB:CC:DD:EE:FF" :: rest)) ∧
        ∀ c ∈ δ, notEngineCmd c :=
  c3_stale_bond_remove_then_fresh_pair
    ⟨fun _ c => if c = infoQCmd "AA:BB:CC:DD:EE:FF" then "Paired: yes"
      else "", fun _ => false, 0⟩
    "AA:BB:CC:DD:EE:FF" "Speaker" (mkScreen [])
    (fun _ => rfl) (fun _ => rfl) (fun _ => rfl)

/-- C2: In the post-pair connect loop of 3 attempts: when every connect
attempt fails with output classified as an authentication failure
(`authFailOf`, the five markers of the source) and every re-pair succeeds,
each of the first two failures is followed by bond removal and one re-pair
with trust before the next connect attempt, the third (last) failure
triggers no re-pair, and the loop ends in the Error state with the
connection-failed message; when every connect attempt fails without an
authentication marker, the loop retries without any removal or re-pair and
ends in the same Error state. -/
theorem c2_post_pair_connect_loop :
    (∀ (w : World) (mac name : String) (st : Eng),
      (∀ h, pyHas (w.runOut h (infoCmd mac)) "Connected: yes" = false) →
      (∀ h, authFailOf (w.runOut h (connectCmd mac)) = true) →
      (∀ h, pyHas (w.runOut h (pairCmd mac)) "Pairing successful" = true) →
      connectLoop w mac name 3 st =
        { st with
          state := ERROR
          errorMsg := "Connection failed.\nPut device in pairing\nmode and try again."
          trace := st.trace ++
            [connectCmd mac, infoCmd mac, discCmd mac, removeCmd mac,
             pairCmd mac, trustCmd mac,
             connectCmd mac, infoCmd mac, discCmd mac, removeCmd mac,
             pairCmd mac, trustCmd mac,
             connectCmd mac, infoCmd mac] }) ∧
    (∀ (w : World) (mac name : String) (st : Eng),
      (∀ h, pyHas (w.runOut h (infoCmd mac)) "Connected: yes" = false) →
      (∀ h, authFailOf (w.runOut h (connectCmd mac)) = false) →
      connectLoop w mac name 3 st =
        { st with
          state := ERROR
          errorMsg := "Connection failed.\nPut device in pairing\nmode and try again."
          trace := st.trace ++
            [connectCmd mac, infoCmd mac, connectCmd mac, infoCmd mac,
             connectCmd mac, infoCmd mac] }) := by
  constructor
  · intro w mac name st HC HA HPS
    have hdp := do_pair_ok w mac HPS
    simp [connectLoop, try_connect_eq, HC, HA, hdp, remove_device_eq, runCmd,
      List.append_assoc]
  · intro w mac name st HC HA
    simp [connectLoop, try_connect_eq, HC, HA, List.append_assoc]

/-- Witness for C2: the spec's scenario — connect output `status 0x05` is
classified as an authentication failure and triggers remove plus one
re-pair (with trust) before each retry; a world with empty outputs retries
without re-pairing. -/
theorem c2_witness :
    connectLoop
        ⟨fun _ c => if c = connectCmd "AA:BB:CC:DD:EE:FF" then
            "Failed to connect: org.bluez.Error.Failed br-connection status 0x05"
          else if c = pairCmd "AA:BB:CC:DD:EE:FF" then "Pairing successful"
          else "", fun _ => false, 0⟩
        "AA:BB:CC:DD:EE:FF" "Speaker" 3 (mkScreen []) =
      { mkScreen [] with
        state := ERROR
        errorMsg := "Connection failed.\nPut device in pairing\nmode and try again."
        trace := (mkScreen []).trace ++
          [connectCmd "AA:BB:CC:DD:EE:FF", infoCmd "AA:BB:CC:DD:EE:FF",
           discCmd "AA:BB:CC:DD:EE:FF", removeCmd "AA:BB:CC:DD:EE:FF",
           pairCmd "AA:BB:CC:DD:EE:FF", trustCmd "AA:BB:CC:DD:EE:FF",
           connectCmd "AA:BB:CC:DD:EE:FF", infoCmd "AA:BB:CC:DD:EE:FF",
           discCmd "AA:BB:CC:DD:EE:FF", removeCmd "AA:BB:CC:DD:EE:FF",
           pairCmd "AA:BB:CC:DD:EE:FF", trustCmd "AA:BB:CC:DD:EE:FF",
           connectCmd "AA:BB:CC:DD:EE:FF", infoCmd "AA:BB:CC:DD:EE:FF"] } ∧
    connectLoop ⟨fun _ _ => "", fun _ => false, 0⟩
        "AA:BB:CC:DD:EE:FF" "Speaker" 3 (mkScreen []) =
      { mkScreen [] with
        state := ERROR
        errorMsg := "Connection failed.\nPut device in pairing\nmode and try again."
        trace := (mkScreen []).trace ++
          [connectCmd "AA:BB:CC:DD:EE:FF", infoCmd "AA:BB:CC:DD:EE:FF",
           connectCmd "AA:BB:CC:DD:EE:FF", infoCmd "AA:BB:CC:DD:EE:FF",
           connectCmd "AA:BB:CC:DD:EE:FF", infoCmd "AA:BB:CC:DD:EE:FF"] } :=
  ⟨c2_post_pair_connect_loop.1
      ⟨fun _ c => if c = connectCmd "AA:BB:CC:DD:EE:FF" then
          "Failed to connect: org.bluez.Error.Failed br-connection status 0x05"
        else if c = pairCmd "AA:BB:CC:DD:EE:FF" then "Pairing successful"
        else "", fun _ => false, 0⟩
      "AA:BB:CC:DD:EE:FF" "Speaker" (mkScreen [])
      (fun _ => rfl) (fun _ => rfl) (fun _ => rfl),
   c2_post_pair_connect_loop.2 ⟨fun _ _ => "", fun _ => false, 0⟩
      "AA:BB:CC:DD:EE:FF" "Speaker" (mkScreen [])
      (fun _ => rfl) (fun _ => rfl)⟩

/-- Counterexample to C9: a pair command whose stdout contains
`Pairing successful` makes `_do_pair` report success at once — the trace
contains no follow-up device-info query, although the daemon would answer
that the device is not paired.  Pairing success here is established solely
by a success substring in the pair command's stdout, contradicting the
claim that it never is. -/
theorem c9_counterexample :
    do_pair
        ⟨fun _ c => if c = pairCmd "AA:BB:CC:DD:EE:FF" then "Pairing successful"
          else "Paired: no", fun _ => false, 0⟩
        "AA:BB:CC:DD:EE:FF" (mkScreen []) =
      (true, { mkScreen [] with trace := [pairCmd "AA:BB:CC:DD:EE:FF"] }) ∧
    infoQCmd "AA:BB:CC:DD:EE:FF" ∉
      ((do_pair
          ⟨fun _ c => if c = pairCmd "AA:BB:CC:DD:EE:FF" then "Pairing successful"
            else "Paired: no", fun _ => false, 0⟩
          "AA:BB:CC:DD:EE:FF" (mkScreen [])).2).trace ∧
    pyHas
      (World.runOut
        ⟨fun _ c => if c = pairCmd "AA:BB:CC:DD:EE:FF" then "Pairing successful"
          else "Paired: no", fun _ => false, 0⟩
        [pairCmd "AA:BB:CC:DD:EE:FF"] (infoQCmd "AA:BB:CC:DD:EE:FF"))
      "Paired: yes" = false := by
  refine ⟨?_, ?_, ?_⟩
  · decide
  · decide
  · decide

/-- C9 as amended: every connect call is followed by a device-info re-query
and connection success is established solely by `Connected: yes` in that
info output; a pair call's success is accepted directly when its stdout
contains `Pairing successful` (or `Already Paired`), and only when neither
marker is present is pairing success established by a follow-up info query
showing `Paired: yes`. -/
theorem c9_requery_policy :
    (∀ (w : World) (mac : String) (st : Eng),
      try_connect w mac st =
        ((pyHas (w.runOut (st.trace ++ [connectCmd mac]) (infoCmd mac))
            "Connected: yes",
          authFailOf (w.runOut st.trace (connectCmd mac))),
         { st with trace := st.trace ++ [connectCmd mac, infoCmd mac] })) ∧
    (∀ (w : World) (mac : String) (st : Eng),
      pyHas (w.runOut st.trace (pairCmd mac)) "Pairing successful" = false →
      pyHas (w.runOut st.trace (pairCmd mac)) "Already Paired" = false →
      do_pair w mac st =
        (pyHas (w.runOut (st.trace ++ [pairCmd mac]) (infoQCmd mac))
            "Paired: yes",
         { st with trace := st.trace ++ [pairCmd mac, infoQCmd mac] })) ∧
    (∀ (w : World) (mac : String) (st : Eng),
      pyHas (w.runOut st.trace (pairCmd mac)) "Pairing successful" = true →
      do_pair w mac st =
        (true, { st with trace := st.trace ++ [pairCmd mac] })) := by
  refine ⟨try_connect_eq, ?_, ?_⟩
  · intro w mac st h1 h2
    simp [do_pair, runCmd, h1, h2, List.append_assoc]
  · intro w mac st h
    simp [do_pair, runCmd, h]

/-- Witness for C9's amended theorem: with empty command outputs the pair
step falls back to the info re-query; the connect step always re-queries. -/
theorem c9_witness :
    do_pair ⟨fun _ _ => "", fun _ => false, 0⟩ "AA:BB:CC:DD:EE:FF"
        (mkScreen []) =
      (pyHas
        (World.runOut ⟨fun _ _ => "", fun _ => false, 0⟩
          ((mkScreen []).trace ++ [pairCmd "AA:BB:CC:DD:EE:FF"])
          (infoQCmd "AA:BB:CC:DD:EE:FF")) "Paired: yes",
       { mkScreen [] with
         trace := (mkScreen []).trace ++
           [pairCmd "AA:BB:CC:DD:EE:FF", infoQCmd "AA:BB:CC:DD:EE:FF"] }) ∧
    try_connect ⟨fun _ _ => "", fun _ => false, 0⟩ "AA:BB:CC:DD:EE:FF"
        (mkScreen []) =
      ((pyHas
          (World.runOut ⟨fun _ _ => "", fun _ => false, 0⟩
            ((mkScreen []).trace ++ [connectCmd "AA:BB:CC:DD:EE:FF"])
            (infoCmd "AA:BB:CC:DD:EE:FF")) "Connected: yes",
        authFailOf (World.runOut ⟨fun _ _ => "", fun _ => false, 0⟩
          (mkScreen []).trace (connectCmd "AA:BB:CC:DD:EE:FF"))),
       { mkScreen [] with
         trace := (mkScreen []).trace ++
           [connectCmd "AA:BB:CC:DD:EE:FF", infoCmd "AA:BB:CC:DD:EE:FF"] }) :=
  ⟨c9_requery_policy.2.1 ⟨fun _ _ => "", fun _ => false, 0⟩
      "AA:BB:CC:DD:EE:FF" (mkScreen []) rfl rfl,
   c9_requery_policy.1 ⟨fun _ _ => "", fun _ => false, 0⟩
      "AA:BB:CC:DD:EE:FF" (mkScreen [])⟩

/-! ### Projection lemmas through the bootstrap helpers -/

theorem runCmd_settings (w : World) (st : Eng) (c : String) :
    ((runCmd w st c).2).settings = st.settings := rfl

theorem runCmd_state (w : World) (st : Eng) (c : String) :
    ((runCmd w st c).2).state = st.state := rfl

theorem runCmd_hci (w : World) (st : Eng) (c : String) :
    ((runCmd w st c).2).hci = st.hci := rfl

theorem runCmd_adapterMac (w : World) (st : Eng) (c : String) :
    ((runCmd w st c).2).adapterMac = st.adapterMac := rfl

theorem start_scan_settings (w : World) (st : Eng) :
    (start_scan w st).settings = st.settings := rfl

theorem start_scan_state (w : World) (st : Eng) :
    (start_scan w st).state = st.state := rfl

theorem start_scan_hci (w : World) (st : Eng) :
    (start_scan w st).hci = st.hci := rfl

theorem start_scan_adapterMac (w : World) (st : Eng) :
    (start_scan w st).adapterMac = st.adapterMac := rfl

theorem ensure_bluetoothd_settings (w : World) (st : Eng) :
    (ensure_bluetoothd w st).settings = st.settings := by
  simp only [ensure_bluetoothd, runCmd]
  split <;> rfl

theorem ensure_bluetoothd_state (w : World) (st : Eng) :
    (ensure_bluetoothd w st).state = st.state := by
  simp only [ensure_bluetoothd, runCmd]
  split <;> rfl

theorem ensure_bluetoothd_hci (w : World) (st : Eng) :
    (ensure_bluetoothd w st).hci = st.hci := by
  simp only [ensure_bluetoothd, runCmd]
  split <;> rfl

theorem ensure_bluetoothd_adapterMac (w : World) (st : Eng) :
    (ensure_bluetoothd w st).adapterMac = st.adapterMac := by
  simp only [ensure_bluetoothd, runCmd]
  split <;> rfl

theorem ensure_dbus_settings (w : World) (st : Eng) :
    (ensure_dbus w st).settings = st.settings := by
  simp only [ensure_dbus, runCmd]
  repeat' split
  all_goals rfl

theorem ensure_dbus_state (w : World) (st : Eng) :
    (ensure_dbus w st).state = st.state := by
  simp only [ensure_dbus, runCmd]
  repeat' split
  all_goals rfl

theorem ensure_dbus_hci (w : World) (st : Eng) :
    (ensure_dbus w st).hci = st.hci := by
  simp only [ensure_dbus, runCmd]
  repeat' split
  all_goals rfl

theorem ensure_dbus_adapterMac (w : World) (st : Eng) :
    (ensure_dbus w st).adapterMac = st.adapterMac := by
  simp only [ensure_dbus, runCmd]
  repeat' split
  all_goals rfl

theorem ensure_bluealsad_settings (w : World) (st : Eng) :
    (ensure_bluealsad w st).settings = st.settings := by
  obtain ⟨δ, e, _⟩ := ensure_bluealsad_framed w st
  rw [e]

theorem ensure_bluealsad_state (w : World) (st : Eng) :
    (ensure_bluealsad w st).state = st.state := by
  obtain ⟨δ, e, _⟩ := ensure_bluealsad_framed w st
  rw [e]

theorem ensure_bluealsad_hci (w : World) (st : Eng) :
    (ensure_bluealsad w st).hci = st.hci := by
  obtain ⟨δ, e, _⟩ := ensure_bluealsad_framed w st
  rw [e]

theorem ensure_bluealsad_adapterMac (w : World) (st : Eng) :
    (ensure_bluealsad w st).adapterMac = st.adapterMac := by
  obtain ⟨δ, e, _⟩ := ensure_bluealsad_framed w st
  rw [e]

theorem selectIf_settings (b : Bool) (w : World) (st : Eng) (s : String) :
    (if b = true then (runCmd w st s).2 else st).settings = st.settings := by
  split <;> rfl

theorem selectIf_state (b : Bool) (w : World) (st : Eng) (s : String) :
    (if b = true then (runCmd w st s).2 else st).state = st.state := by
  split <;> rfl

theorem selectIf_hci (b : Bool) (w : World) (st : Eng) (s : String) :
    (if b = true then (runCmd w st s).2 else st).hci = st.hci := by
  split <;> rfl

theorem selectIf_adapterMac (b : Bool) (w : World) (st : Eng) (s : String) :
    (if b = true then (runCmd w st s).2 else st).adapterMac = st.adapterMac := by
  split <;> rfl

theorem checkAdapterLoop_settings (w : World) :
    ∀ l st, (checkAdapterLoop w l st).settings = st.settings := by
  intro l
  induction l with
  | nil => exact fun st => rfl
  | cons hh rest ih =>
    intro st
    simp only [checkAdapterLoop]
    split
    · exact ih _
    · split
      · exact ih _
      · split
        · simp only [start_scan_settings, ensure_bluealsad_settings,
            runCmd_settings, selectIf_settings, ensure_bluetoothd_settings,
            ensure_dbus_settings]
        · exact ih _

theorem checkAdapterLoop_state (w : World) :
    ∀ l st, (checkAdapterLoop w l st).state = SCAN ∨
      (checkAdapterLoop w l st).state = ERROR := by
  intro l
  induction l with
  | nil => exact fun st => Or.inr rfl
  | cons hh rest ih =>
    intro st
    simp only [checkAdapterLoop]
    split
    · exact ih _
    · split
      · exact ih _
      · split
        · left
          simp only [start_scan_state, ensure_bluealsad_state, runCmd_state,
            selectIf_state, ensure_bluetoothd_state, ensure_dbus_state]
        · exact ih _

/-- C7: The engine leaves the settings untouched on every run that ends in
the Error state (pairing or connection exhaustion); any settings change
implies the run ended in Done (the finish step), where exactly the two
fields `bt_device_mac` and `bt_device_name` are written — every other key's
value is preserved on all runs; and the adapter-check path (including its
adapter-not-found Error) never touches the settings. -/
theorem c7_settings_only_on_success :
    (∀ (w : World) (mac name : String) (st : Eng),
      (pair_device w mac name st).state = ERROR →
      (pair_device w mac name st).settings = st.settings) ∧
    (∀ (w : World) (mac name : String) (st : Eng),
      (pair_device w mac name st).settings ≠ st.settings →
      (pair_device w mac name st).state = DONE ∧
      (pair_device w mac name st).settings =
        sset (sset st.settings "bt_device_mac" mac) "bt_device_name" name) ∧
    (∀ (w : World) (mac name : String) (st : Eng) (k : String),
      k ≠ "bt_device_mac" → k ≠ "bt_device_name" →
      sget (pair_device w mac name st).settings k = sget st.settings k) ∧
    (∀ (w : World) (st : Eng), (check_adapter w st).settings = st.settings) := by
  refine ⟨?_, ?_, ?_, ?_⟩
  · intro w mac name st hE
    rcases pair_device_outcome w mac name st with h | h
    · exact absurd (h.1.symm.trans hE) (by decide)
    · exact h.2
  · intro w mac name st hNe
    rcases pair_device_outcome w mac name st with h | h
    · exact h
    · exact absurd h.2 hNe
  · intro w mac name st k hk1 hk2
    rcases pair_device_outcome w mac name st with h | h
    · rw [h.2, sget_sset_ne _ _ _ _ hk2, sget_sset_ne _ _ _ _ hk1]
    · rw [h.2]
  · intro w st
    exact checkAdapterLoop_settings w ["hci0", "hci1"]
      { st with message := "Looking for USB BT dongle..." }

/-- Witness for C7: with every command output empty, the engine run ends in
Error and the settings list is unchanged; an unrelated key keeps its
value. -/
theorem c7_witness :
    (pair_device ⟨fun _ _ => "", fun _ => false, 0⟩ "AA:BB:CC:DD:EE:FF"
        "Speaker" (mkScreen [("volume", "5")])).state = ERROR ∧
    (pair_device ⟨fun _ _ => "", fun _ => false, 0⟩ "AA:BB:CC:DD:EE:FF"
        "Speaker" (mkScreen [("volume", "5")])).settings =
      (mkScreen [("volume", "5")]).settings ∧
    sget (pair_device ⟨fun _ _ => "", fun _ => false, 0⟩ "AA:BB:CC:DD:EE:FF"
        "Speaker" (mkScreen [("volume", "5")])).settings "volume" =
      sget (mkScreen [("volume", "5")]).settings "volume" :=
  ⟨by decide,
   (c7_settings_only_on_success.1 ⟨fun _ _ => "", fun _ => false, 0⟩
      "AA:BB:CC:DD:EE:FF" "Speaker" (mkScreen [("volume", "5")]) (by decide)),
   (c7_settings_only_on_success.2.2.1 ⟨fun _ _ => "", fun _ => false, 0⟩
      "AA:BB:CC:DD:EE:FF" "Speaker" (mkScreen [("volume", "5")]) "volume"
      (by decide) (by decide))⟩

theorem runCmd_fst (w : World) (st : Eng) (c : String) :
    (runCmd w st c).1 = w.runOut st.trace c := rfl

theorem runCmd_trace (w : World) (st : Eng) (c : String) :
    ((runCmd w st c).2).trace = st.trace ++ [c] := rfl

/-- C6: Adapter selection tries `hci0` then `hci1` in order and selects the
first whose info output contains `Bus: USB` and not `MediaTek`, recording
the address extracted as the token following `Address:` on the first line
containing `BD Address` (`extractAddr`) when that extraction yields a token,
retaining the previously stored adapter address when it does not, and moving
to the scan state; when neither candidate qualifies the wizard enters the
Error state with the plug-in-a-dongle message. -/
theorem c6_adapter_selection (w : World) (st : Eng) :
    (pyHas (w.runOut st.trace (hciInfoCmd "hci0")) "Bus: USB" = true →
      pyHas (w.runOut st.trace (hciInfoCmd "hci0")) "MediaTek" = false →
      (check_adapter w st).hci = some "hci0" ∧
      (∀ m, extractAddr (w.runOut st.trace (hciInfoCmd "hci0")) = some m →
        (check_adapter w st).adapterMac = some m) ∧
      (extractAddr (w.runOut st.trace (hciInfoCmd "hci0")) = none →
        (check_adapter w st).adapterMac = st.adapterMac) ∧
      (check_adapter w st).state = SCAN) ∧
    ((pyHas (w.runOut st.trace (hciInfoCmd "hci0")) "Bus: USB" = false ∨
        pyHas (w.runOut st.trace (hciInfoCmd "hci0")) "MediaTek" = true) →
      pyHas (w.runOut (st.trace ++ [hciInfoCmd "hci0"]) (hciInfoCmd "hci1"))
        "Bus: USB" = true →
      pyHas (w.runOut (st.trace ++ [hciInfoCmd "hci0"]) (hciInfoCmd "hci1"))
        "MediaTek" = false →
      (check_adapter w st).hci = some "hci1" ∧
      (∀ m, extractAddr (w.runOut (st.trace ++ [hciInfoCmd "hci0"])
          (hciInfoCmd "hci1")) = some m →
        (check_adapter w st).adapterMac = some m) ∧
      (extractAddr (w.runOut (st.trace ++ [hciInfoCmd "hci0"])
          (hciInfoCmd "hci1")) = none →
        (check_adapter w st).adapterMac = st.adapterMac) ∧
      (check_adapter w st).state = SCAN) ∧
    ((pyHas (w.runOut st.trace (hciInfoCmd "hci0")) "Bus: USB" = false ∨
        pyHas (w.runOut st.trace (hciInfoCmd "hci0")) "MediaTek" = true) →
      (pyHas (w.runOut (st.trace ++ [hciInfoCmd "hci0"]) (hciInfoCmd "hci1"))
          "Bus: USB" = false ∨
        pyHas (w.runOut (st.trace ++ [hciInfoCmd "hci0"]) (hciInfoCmd "hci1"))
          "MediaTek" = true) →
      (check_adapter w st).state = ERROR ∧
      (check_adapter w st).errorMsg =
        "No USB BT dongle found.\nPlug in a dongle and try again.") := by
  refine ⟨?_, ?_, ?_⟩
  · intro hU hM
    have hne : w.runOut st.trace (hciInfoCmd "hci0") ≠ "" := by
      intro he
      rw [he] at hU
      exact absurd hU (by decide)
    refine ⟨?_, fun m hm => ?_, fun hx => ?_, ?_⟩ <;>
      simp [check_adapter, checkAdapterLoop, runCmd_fst, runCmd_trace, hU, hM, hne,
        start_scan_hci, start_scan_adapterMac, start_scan_state,
        ensure_bluealsad_hci, ensure_bluealsad_adapterMac,
        ensure_bluealsad_state, selectIf_hci, selectIf_adapterMac,
        selectIf_state, ensure_bluetoothd_hci, ensure_bluetoothd_adapterMac,
        ensure_bluetoothd_state, ensure_dbus_hci, ensure_dbus_adapterMac,
        ensure_dbus_state, runCmd_hci, runCmd_adapterMac, runCmd_state, *]
  · intro hBad hU1 hM1
    have hne1 : w.runOut (st.trace ++ [hciInfoCmd "hci0"])
        (hciInfoCmd "hci1") ≠ "" := by
      intro he
      rw [he] at hU1
      exact absurd hU1 (by decide)
    rcases hBad with hU0 | hM0
    · refine ⟨?_, fun m hm => ?_, fun hx => ?_, ?_⟩ <;>
        simp [check_adapter, checkAdapterLoop, runCmd_fst, runCmd_trace, hU0, hU1, hM1, hne1,
          start_scan_hci, start_scan_adapterMac, start_scan_state,
          ensure_bluealsad_hci, ensure_bluealsad_adapterMac,
          ensure_bluealsad_state, selectIf_hci, selectIf_adapterMac,
          selectIf_state, ensure_bluetoothd_hci, ensure_bluetoothd_adapterMac,
          ensure_bluetoothd_state, ensure_dbus_hci, ensure_dbus_adapterMac,
          ensure_dbus_state, runCmd_hci, runCmd_adapterMac, runCmd_state, *]
    · by_cases hU0 : pyHas (w.runOut st.trace (hciInfoCmd "hci0"))
          "Bus: USB" = true
      · refine ⟨?_, fun m hm => ?_, fun hx => ?_, ?_⟩ <;>
          simp [check_adapter, checkAdapterLoop, runCmd_fst, runCmd_trace, hU0, hM0, hU1,
            hM1, hne1, start_scan_hci, start_scan_adapterMac, start_scan_state,
            ensure_bluealsad_hci, ensure_bluealsad_adapterMac,
            ensure_bluealsad_state, selectIf_hci, selectIf_adapterMac,
            selectIf_state, ensure_bluetoothd_hci,
            ensure_bluetoothd_adapterMac, ensure_bluetoothd_state,
            ensure_dbus_hci, ensure_dbus_adapterMac, ensure_dbus_state,
            runCmd_hci, runCmd_adapterMac, runCmd_state, *]
      · have hU0f : pyHas (w.runOut st.trace (hciInfoCmd "hci0"))
            "Bus: USB" = false := by
          simpa using hU0
        refine ⟨?_, fun m hm => ?_, fun hx => ?_, ?_⟩ <;>
          simp [check_adapter, checkAdapterLoop, runCmd_fst, runCmd_trace, hU0f, hU1, hM1,
            hne1, start_scan_hci, start_scan_adapterMac, start_scan_state,
            ensure_bluealsad_hci, ensure_bluealsad_adapterMac,
            ensure_bluealsad_state, selectIf_hci, selectIf_adapterMac,
            selectIf_state, ensure_bluetoothd_hci,
            ensure_bluetoothd_adapterMac, ensure_bluetoothd_state,
            ensure_dbus_hci, ensure_dbus_adapterMac, ensure_dbus_state,
            runCmd_hci, runCmd_adapterMac, runCmd_state, *]
  · intro hBad0 hBad1
    rcases hBad0 with hU0 | hM0 <;> rcases hBad1 with hU1 | hM1
    · constructor <;>
        simp [check_adapter, checkAdapterLoop, runCmd_fst, runCmd_trace, hU0, hU1]
    · by_cases hU1b : pyHas (w.runOut (st.trace ++ [hciInfoCmd "hci0"])
          (hciInfoCmd "hci1")) "Bus: USB" = true
      · constructor <;>
          simp [check_adapter, checkAdapterLoop, runCmd_fst, runCmd_trace, hU0, hU1b, hM1]
      · have hU1f : pyHas (w.runOut (st.trace ++ [hciInfoCmd "hci0"])
            (hciInfoCmd "hci1")) "Bus: USB" = false := by
          simpa using hU1b
        constructor <;>
          simp [check_adapter, checkAdapterLoop, runCmd_fst, runCmd_trace, hU0, hU1f]
    · by_cases hU0b : pyHas (w.runOut st.trace (hciInfoCmd "hci0"))
          "Bus: USB" = true
      · constructor <;>
          simp [check_adapter, checkAdapterLoop, runCmd_fst, runCmd_trace, hU0b, hM0, hU1]
      · have hU0f : pyHas (w.runOut st.trace (hciInfoCmd "hci0"))
            "Bus: USB" = false := by
          simpa using hU0b
        constructor <;>
          simp [check_adapter, checkAdapterLoop, runCmd_fst, runCmd_trace, hU0f, hU1]
    · by_cases hU0b : pyHas (w.runOut st.trace (hciInfoCmd "hci0"))
          "Bus: USB" = true
      · by_cases hU1b : pyHas (w.runOut (st.trace ++ [hciInfoCmd "hci0"])
            (hciInfoCmd "hci1")) "Bus: USB" = true
        · constructor <;>
            simp [check_adapter, checkAdapterLoop, runCmd_fst, runCmd_trace, hU0b, hM0,
              hU1b, hM1]
        · have hU1f : pyHas (w.runOut (st.trace ++ [hciInfoCmd "hci0"])
              (hciInfoCmd "hci1")) "Bus: USB" = false := by
            simpa using hU1b
          constructor <;>
            simp [check_adapter, checkAdapterLoop, runCmd_fst, runCmd_trace, hU0b, hM0, hU1f]
      · have hU0f : pyHas (w.runOut st.trace (hciInfoCmd "hci0"))
            "Bus: USB" = false := by
          simpa using hU0b
        by_cases hU1b : pyHas (w.runOut (st.trace ++ [hciInfoCmd "hci0"])
            (hciInfoCmd "hci1")) "Bus: USB" = true
        · constructor <;>
            simp [check_adapter, checkAdapterLoop, runCmd_fst, runCmd_trace, hU0f, hU1b, hM1]
        · have hU1f : pyHas (w.runOut (st.trace ++ [hciInfoCmd "hci0"])
              (hciInfoCmd "hci1")) "Bus: USB" = false := by
            simpa using hU1b
          constructor <;>
            simp [check_adapter, checkAdapterLoop, runCmd_fst, runCmd_trace, hU0f, hU1f]

/-- Witness for C6 (the spec's scenario): an `hci0` info block on a USB bus
with `BD Address: AA:BB:CC:DD:EE:FF` selects `hci0` with that address. -/
theorem c6_witness :
    (check_adapter
        ⟨fun _ c => if c = hciInfoCmd "hci0" then
            "hci0:   Type: Primary  Bus: USB\n\tBD Address: AA:BB:CC:DD:EE:FF  ACL MTU: 310:10"
          else "", fun _ => false, 0⟩
        (mkScreen [])).hci = some "hci0" ∧
    (check_adapter
        ⟨fun _ c => if c = hciInfoCmd "hci0" then
            "hci0:   Type: Primary  Bus: USB\n\tBD Address: AA:BB:CC:DD:EE:FF  ACL MTU: 310:10"
          else "", fun _ => false, 0⟩
        (mkScreen [])).adapterMac = some "AA:BB:CC:DD:EE:FF" ∧
    (check_adapter
        ⟨fun _ c => if c = hciInfoCmd "hci0" then
            "hci0:   Type: Primary  Bus: USB\n\tBD Address: AA:BB:CC:DD:EE:FF  ACL MTU: 310:10"
          else "", fun _ => false, 0⟩
        (mkScreen [])).state = SCAN := by
  have h := (c6_adapter_selection
    ⟨fun _ c => if c = hciInfoCmd "hci0" then
        "hci0:   Type: Primary  Bus: USB\n\tBD Address: AA:BB:CC:DD:EE:FF  ACL MTU: 310:10"
      else "", fun _ => false, 0⟩
    (mkScreen [])).1 (by decide) (by decide)
  refine ⟨h.1, ?_, h.2.2.2⟩
  exact h.2.1 "AA:BB:CC:DD:EE:FF" (by decide)

/-- C10: The device-selection invariant.  The scan poll is the only entry
into `SELECT_DEVICE` and establishes a nonempty device list with the cursor
reset to 0; every input dispatch preserves the invariant that in
`SELECT_DEVICE` the list is nonempty and `0 ≤ selected < length` (Up clamps
at 0, Down clamps at `length - 1`); and every update tick preserves it as
well. -/
theorem c10_selection_in_bounds :
    (∀ (w : World) (st : Eng), st.state = SCAN →
      (poll_scan w st).state = SELECT_DEVICE →
      (poll_scan w st).devices ≠ [] ∧ (poll_scan w st).selected = 0) ∧
    (∀ (w : World) (button eventType : Nat) (st : Eng),
      (st.state = SELECT_DEVICE →
        st.devices ≠ [] ∧ 0 ≤ st.selected ∧
          st.selected < (st.devices.length : Int)) →
      (handle_input w button eventType st).1.state = SELECT_DEVICE →
      (handle_input w button eventType st).1.devices ≠ [] ∧
        0 ≤ (handle_input w button eventType st).1.selected ∧
        (handle_input w button eventType st).1.selected <
          ((handle_input w button eventType st).1.devices.length : Int)) ∧
    (∀ (w : World) (st : Eng),
      (st.state = SELECT_DEVICE →
        st.devices ≠ [] ∧ 0 ≤ st.selected ∧
          st.selected < (st.devices.length : Int)) →
      (update w st).state = SELECT_DEVICE →
      (update w st).devices ≠ [] ∧ 0 ≤ (update w st).selected ∧
        (update w st).selected < ((update w st).devices.length : Int)) := by
  have pollFact : ∀ (w : World) (st : Eng), st.state = SCAN →
      (poll_scan w st).state = SELECT_DEVICE →
      (poll_scan w st).devices ≠ [] ∧ (poll_scan w st).selected = 0 := by
    intro w st hS
    simp only [poll_scan]
    split
    · intro h2
      exact absurd (hS ▸ h2) (by decide)
    · split
      · intro _
        constructor
        · assumption
        · rfl
      · intro h2
        exact absurd (hS ▸ h2) (by decide)
  refine ⟨pollFact, ?_, ?_⟩
  · intro w button eventType st hInv
    simp only [handle_input]
    split
    · exact hInv
    · split
      · rename_i hSel
        split
        · -- Up
          intro _
          obtain ⟨hne, hlo, hhi⟩ := hInv hSel
          have hlen : (0 : Int) < (st.devices.length : Int) := by
            exact_mod_cast List.length_pos.mpr hne
          show st.devices ≠ [] ∧ 0 ≤ max 0 (st.selected - 1) ∧
            max 0 (st.selected - 1) < (st.devices.length : Int)
          exact ⟨hne, le_max_left _ _, max_lt hlen (by omega)⟩
        · split
          · -- Down
            intro _
            obtain ⟨hne, hlo, hhi⟩ := hInv hSel
            have hlen : (0 : Int) < (st.devices.length : Int) := by
              exact_mod_cast List.length_pos.mpr hne
            show st.devices ≠ [] ∧
              0 ≤ min ((st.devices.length : Int) - 1) (st.selected + 1) ∧
              min ((st.devices.length : Int) - 1) (st.selected + 1) <
                (st.devices.length : Int)
            exact ⟨hne, le_min (by omega) (by omega),
              lt_of_le_of_lt (min_le_left _ _) (by omega)⟩
          · split
            · -- Confirm
              split
              · intro h2
                exact absurd (show PAIR = SELECT_DEVICE from h2) (by decide)
              · exact hInv
            · split
              · exact hInv
              · exact hInv
      · split
        · -- SCAN state
          rename_i hSc
          split
          · exact hInv
          · split
            · intro h2
              have h2b : (start_scan w st).state = SELECT_DEVICE := h2
              rw [start_scan_state] at h2b
              exact absurd (hSc.symm.trans h2b) (by decide)
            · exact hInv
        · split
          · -- ERROR state
            split
            · intro h2
              have h2b : (checkAdapterLoop w ["hci0", "hci1"]
                  { st with
                    state := CHECK_ADAPTER
                    message := "Looking for USB BT dongle..." }).state =
                  SELECT_DEVICE := h2
              rcases (checkAdapterLoop_state w ["hci0", "hci1"]
                  { st with
                    state := CHECK_ADAPTER
                    message := "Looking for USB BT dongle..." }) with hs | hs
              · exact absurd (hs.symm.trans h2b) (by decide)
              · exact absurd (hs.symm.trans h2b) (by decide)
            · split
              · exact hInv
              · exact hInv
          · split
            · -- DONE state
              split
              · exact hInv
              · exact hInv
            · split
              · -- CHECK_ADAPTER state
                split
                · exact hInv
                · exact hInv
              · exact hInv
  · intro w st hInv
    simp only [update]
    split
    · rename_i d hp
      split
      · intro h2
        exact hInv h2
      · intro h2
        have h2b : (pair_device w d.1 d.2
            { st with
              pairPending := none
              pairDrawWait := 0 }).state = SELECT_DEVICE := h2
        rcases (pair_device_outcome w d.1 d.2
            { st with
              pairPending := none
              pairDrawWait := 0 }) with h | h
        · exact absurd (h.1.symm.trans h2b) (by decide)
        · exact absurd (h.1.symm.trans h2b) (by decide)
    · split
      · rename_i hp hSc
        intro h2
        obtain ⟨hne, hz⟩ := pollFact w st hSc h2
        refine ⟨hne, ?_, ?_⟩
        · rw [hz]
        · rw [hz]
          exact_mod_cast List.length_pos.mpr hne
      · exact hInv

/-- Witness for C10: a completed scan enters device selection with the
cursor at 0; a Down press on a one-entry list keeps the cursor in bounds;
an idle update tick preserves the invariant. -/
theorem c10_witness :
    ((poll_scan
        ⟨fun _ c => if c = "bluetoothctl devices 2>/dev/null" then
            "Device 11:22:33:44:55:66 Speaker" else "", fun _ => false, 12⟩
        { mkScreen [] with state := SCAN }).devices ≠ [] ∧
      (poll_scan
        ⟨fun _ c => if c = "bluetoothctl devices 2>/dev/null" then
            "Device 11:22:33:44:55:66 Speaker" else "", fun _ => false, 12⟩
        { mkScreen [] with state := SCAN }).selected = 0) ∧
    ((handle_input ⟨fun _ _ => "", fun _ => false, 0⟩ BTN_DOWN 1
        { mkScreen [] with
          state := SELECT_DEVICE
          devices := [("11:22:33:44:55:66", "Speaker")] }).1.devices ≠ [] ∧
      0 ≤ (handle_input ⟨fun _ _ => "", fun _ => false, 0⟩ BTN_DOWN 1
        { mkScreen [] with
          state := SELECT_DEVICE
          devices := [("11:22:33:44:55:66", "Speaker")] }).1.selected ∧
      (handle_input ⟨fun _ _ => "", fun _ => false, 0⟩ BTN_DOWN 1
        { mkScreen [] with
          state := SELECT_DEVICE
          devices := [("11:22:33:44:55:66", "Speaker")] }).1.selected <
        (((handle_input ⟨fun _ _ => "", fun _ => false, 0⟩ BTN_DOWN 1
          { mkScreen [] with
            state := SELECT_DEVICE
            devices := [("11:22:33:44:55:66", "Speaker")] }).1.devices.length :
          Int))) ∧
    ((update ⟨fun _ _ => "", fun _ => false, 0⟩
        { mkScreen [] with
          state := SELECT_DEVICE
          devices := [("11:22:33:44:55:66", "Speaker")] }).devices ≠ [] ∧
      0 ≤ (update ⟨fun _ _ => "", fun _ => false, 0⟩
        { mkScreen [] with
          state := SELECT_DEVICE
          devices := [("11:22:33:44:55:66", "Speaker")] }).selected ∧
      (update ⟨fun _ _ => "", fun _ => false, 0⟩
        { mkScreen [] with
          state := SELECT_DEVICE
          devices := [("11:22:33:44:55:66", "Speaker")] }).selected <
        ((update ⟨fun _ _ => "", fun _ => false, 0⟩
          { mkScreen [] with
            state := SELECT_DEVICE
            devices := [("11:22:33:44:55:66", "Speaker")] }).devices.length :
          Int)) :=
  ⟨c10_selection_in_bounds.1
      ⟨fun _ c => if c = "bluetoothctl devices 2>/dev/null" then
          "Device 11:22:33:44:55:66 Speaker" else "", fun _ => false, 12⟩
      { mkScreen [] with state := SCAN } (by decide) (by decide),
   c10_selection_in_bounds.2.1 ⟨fun _ _ => "", fun _ => false, 0⟩ BTN_DOWN 1
      { mkScreen [] with
        state := SELECT_DEVICE
        devices := [("11:22:33:44:55:66", "Speaker")] }
      (fun _ => by decide) (by decide),
   c10_selection_in_bounds.2.2 ⟨fun _ _ => "", fun _ => false, 0⟩
      { mkScreen [] with
        state := SELECT_DEVICE
        devices := [("11:22:33:44:55:66", "Speaker")] }
      (fun _ => by decide) (by decide)⟩

/-- C8: A confirm press in `SELECT_DEVICE` never invokes the engine within
the same input dispatch — it only records the pending request (the selected
device with its display tags stripped) and sets the "Pairing..." message,
issuing no external command; the first update tick after the confirm still
does not invoke the engine (it only advances the draw-wait counter, leaving
the pending request and the trace untouched, so the status text is rendered
in that frame); and the second update tick executes exactly the engine call
on the pending device, so the deferred pair spans two ticks: schedule, then
execute. -/
theorem c8_confirm_two_tick_defer (w : World) (st : Eng)
    (h1 : st.state = SELECT_DEVICE) (h2 : st.devices ≠ [])
    (h3 : st.pairPending = none) (h4 : st.pairDrawWait = 0) :
    handle_input w BTN_A 1 st =
      ({ st with
         state := PAIR
         message := "Pairing with " ++
           (stripTags (st.devices.getD st.selected.toNat ("", "")).2 ++ "...")
         pairPending := some ((st.devices.getD st.selected.toNat ("", "")).1,
           stripTags (st.devices.getD st.selected.toNat ("", "")).2) },
       none) ∧
    update w (handle_input w BTN_A 1 st).1 =
      { (handle_input w BTN_A 1 st).1 with pairDrawWait := 1 } ∧
    (update w (handle_input w BTN_A 1 st).1).trace = st.trace ∧
    (update w (handle_input w BTN_A 1 st).1).pairPending =
      some ((st.devices.getD st.selected.toNat ("", "")).1,
        stripTags (st.devices.getD st.selected.toNat ("", "")).2) ∧
    update w (update w (handle_input w BTN_A 1 st).1) =
      pair_device w (st.devices.getD st.selected.toNat ("", "")).1
        (stripTags (st.devices.getD st.selected.toNat ("", "")).2)
        { (handle_input w BTN_A 1 st).1 with
          pairPending := none
          pairDrawWait := 0 } := by
  have e1 : handle_input w BTN_A 1 st =
      ({ st with
         state := PAIR
         message := "Pairing with " ++
           (stripTags (st.devices.getD st.selected.toNat ("", "")).2 ++ "...")
         pairPending := some ((st.devices.getD st.selected.toNat ("", "")).1,
           stripTags (st.devices.getD st.selected.toNat ("", "")).2) },
       none) := by
    simp [handle_input, h1, h2, BTN_A, BTN_UP, BTN_DOWN, BTN_B]
  refine ⟨e1, ?_, ?_, ?_, ?_⟩
  · rw [e1]
    simp only [update]
    rw [if_pos (show st.pairDrawWait + 1 < 2 by omega)]
    simp [h4]
  · rw [e1]
    simp only [update]
    rw [if_pos (show st.pairDrawWait + 1 < 2 by omega)]
  · rw [e1]
    simp only [update]
    rw [if_pos (show st.pairDrawWait + 1 < 2 by omega)]
  · rw [e1]
    simp only [update]
    rw [if_pos (show st.pairDrawWait + 1 < 2 by omega)]
    simp only [update]
    rw [if_neg (show ¬ st.pairDrawWait + 1 + 1 < 2 by omega)]


/-- Witness for C8 on a one-device selection list: confirm records the
pending pair of the saved-tagged device with its tag stripped and makes no
engine call on the confirm tick or the first update tick; the second
update tick hands the recorded MAC and cleaned name to the pairing engine. -/
theorem c8_witness :
    (update ⟨fun _ _ => "", fun _ => false, 0⟩
        (handle_input ⟨fun _ _ => "", fun _ => false, 0⟩ BTN_A 1
          { mkScreen [] with
            state := SELECT_DEVICE
            devices := [("AA:BB:CC:DD:EE:FF", "Speaker [saved]")] }).1).trace =
      [] ∧
    (update ⟨fun _ _ => "", fun _ => false, 0⟩
        (handle_input ⟨fun _ _ => "", fun _ => false, 0⟩ BTN_A 1
          { mkScreen [] with
            state := SELECT_DEVICE
            devices := [("AA:BB:CC:DD:EE:FF", "Speaker [saved]")] }).1).pairPending =
      some ("AA:BB:CC:DD:EE:FF", "Speaker") ∧
    update ⟨fun _ _ => "", fun _ => false, 0⟩
        (update ⟨fun _ _ => "", fun _ => false, 0⟩
          (handle_input ⟨fun _ _ => "", fun _ => false, 0⟩ BTN_A 1
            { mkScreen [] with
              state := SELECT_DEVICE
              devices := [("AA:BB:CC:DD:EE:FF", "Speaker [saved]")] }).1) =
      pair_device ⟨fun _ _ => "", fun _ => false, 0⟩ "AA:BB:CC:DD:EE:FF"
        "Speaker"
        { (handle_input ⟨fun _ _ => "", fun _ => false, 0⟩ BTN_A 1
            { mkScreen [] with
              state := SELECT_DEVICE
              devices := [("AA:BB:CC:DD:EE:FF", "Speaker [saved]")] }).1 with
          pairPending := none
          pairDrawWait := 0 } := by
  have h := c8_confirm_two_tick_defer ⟨fun _ _ => "", fun _ => false, 0⟩
    { mkScreen [] with
      state := SELECT_DEVICE
      devices := [("AA:BB:CC:DD:EE:FF", "Speaker [saved]")] }
    rfl (by decide) rfl rfl
  refine ⟨h.2.2.1, ?_, ?_⟩
  · rw [h.2.2.2.1]
    rfl
  · rw [h.2.2.2.2]
    rfl
